import Mathlib

/-!
# Aceinna OpenIMU300 DriveWorks IMU plugin: plugin glue (`src/main.cpp`) and
# protocol declarations (`include/openimu300_plugin.h`)

A shallow embedding of `AceinnaIMUSensor` and of the exported
`_dwSensorPlugin_*` functions.  Member functions become state-passing
functions over the sensor record; calls into the DriveWorks runtime are
answered by a record of functions of the call history, and every such call is
appended to that history, so that "what was called, with what, in which
order" is a statement about a list.
-/

namespace dw.plugins.imu

/-! ## DriveWorks types used by the plugin -/

/-- Status codes of the DriveWorks runtime.  The constructors named `DW_*` are
the codes `main.cpp` mentions (plus the time-out code of the CAN reader);
`code n` stands for any other status the runtime may hand back. -/
inductive dwStatus where
  | DW_SUCCESS
  | DW_INVALID_ARGUMENT
  | DW_INVALID_HANDLE
  | DW_NOT_AVAILABLE
  | DW_BUFFER_FULL
  | DW_TIME_OUT
  | DW_FAILURE
  | code (n : Nat)
deriving DecidableEq, Repr

open dwStatus

/-- A CAN frame as DriveWorks hands it over (`dwCANMessage`). -/
structure dwCANMessage where
  timestamp_us : Int
  id : Nat
  size : Nat
  data : List Nat
deriving DecidableEq, Repr

/-- The all-zero frame. -/
def dwCANMessage.zero : dwCANMessage := ⟨0, 0, 0, []⟩

/-- A decoded IMU frame (`dwIMUFrame`): the time stamp, which `parseData`
writes itself, and the sensor channels, which only the decoder writes.
`channels = []` is the value-initialised (`{}`) frame. -/
structure dwIMUFrame where
  timestamp_us : Int
  channels : List Int
deriving DecidableEq, Repr

/-- A sensor handle of the runtime; `DW_NULL_HANDLE` is the null pointer. -/
abbrev dwSensorHandle_t := Nat

/-- The null handle. -/
def DW_NULL_HANDLE : dwSensorHandle_t := 0

/-- One call from the plugin into the runtime or into the IMU's `init`,
together with what the call answered. -/
inductive Event where
  | salCreateSensor (params protocol : List Char) (sal : Nat) (status : dwStatus)
      (handle : dwSensorHandle_t)
  | imuInit (params : List Char) (ok : Bool)
  | sensorStart (canSensor : dwSensorHandle_t) (status : dwStatus)
  | sensorStop (canSensor : dwSensorHandle_t) (status : dwStatus)
  | sensorReset (canSensor : dwSensorHandle_t) (status : dwStatus)
  | salReleaseSensor (canSensor : dwSensorHandle_t) (status : dwStatus)
  | canSend (msg : dwCANMessage) (timeout_us : Nat) (canSensor : dwSensorHandle_t)
      (status : dwStatus)
  | canRead (timeout_us : Nat) (canSensor : dwSensorHandle_t) (status : dwStatus)
      (msg : dwCANMessage)
deriving DecidableEq, Repr

/-- The DriveWorks runtime as the plugin sees it.  Each entry answers one API
call; its first argument is the history of all calls made so far, so the
answer may depend on anything that happened before. -/
structure DriveWorks where
  /-- Size in bytes of one `dwCANMessage`. -/
  sizeofCANMessage : Nat
  /-- Call `dwSAL_createSensor(&handle, {params, protocol}, sal)`: the status
  and the value of `handle` after the call. -/
  dwSAL_createSensor : List Event → dwSensorHandle_t → List Char → List Char → Nat →
    dwStatus × dwSensorHandle_t
  dwSensor_start : List Event → dwSensorHandle_t → dwStatus
  dwSensor_stop : List Event → dwSensorHandle_t → dwStatus
  dwSensor_reset : List Event → dwSensorHandle_t → dwStatus
  dwSAL_releaseSensor : List Event → dwSensorHandle_t → dwStatus
  dwSensorCAN_sendMessage : List Event → dwCANMessage → Nat → dwSensorHandle_t → dwStatus
  /-- Call `dwSensorCAN_readMessage(slot, timeout, handle)`: the status and the
  contents of `*slot` after the call, given its contents before. -/
  dwSensorCAN_readMessage : List Event → dwCANMessage → Nat → dwSensorHandle_t →
    dwStatus × dwCANMessage

/-- Modelled from the spec: the `IMU` abstract class and its `OpenIMU300`
implementation are not among the sources; the three virtual methods the plugin
calls are taken as given, over the state `σ` of the one static instance.
`init` may rewrite the instance and the two out-parameters; classification and
decoding read the instance and leave it alone (the parameter store is
"read-only afterward" once the session is set up). -/
structure IMU (σ : Type) where
  /-- Call `init(paramsString, &configMessages, &configCount)`: result, then the
  two out-parameters after the call (given their values before), then the
  instance after the call. -/
  init : σ → List Char → Option (Nat → dwCANMessage) → Nat →
    Bool × Option (Nat → dwCANMessage) × Nat × σ
  isValidMessage : σ → Nat → Bool
  /-- Call `parseDataPacket(packet, frame)`: result and `*frame` after the call. -/
  parseDataPacket : σ → dwCANMessage → dwIMUFrame → Bool × dwIMUFrame

/-- Everything outside the sensor objects: the history of runtime calls and
the static `OpenIMU300 instance`. -/
structure World (σ : Type) where
  trace : List Event
  instance_ : σ

/-! ## Helper classes of the DriveWorks samples -/

/-- The `ByteQueue` of the DriveWorks samples, created with element size
`sizeof(dwCANMessage)`, seen one element at a time: the plugin's host pushes
whole records. -/
abbrev ByteQueue := List dwCANMessage

/-- Pointer to the oldest element, if the queue holds one. -/
def ByteQueue.peek (q : ByteQueue) : Option dwCANMessage := q.head?

/-- Drop the oldest element. -/
def ByteQueue.dequeue (q : ByteQueue) : ByteQueue := q.tail

/-- The `BufferPool<dwCANMessage>` of the DriveWorks samples: message slots,
each an address with its current contents, either free or handed out. -/
structure BufferPool where
  free : List (Nat × dwCANMessage)
  used : List (Nat × dwCANMessage)
deriving DecidableEq, Repr

/-- A pool of `slotSize` zeroed free slots at addresses `0 .. slotSize-1`. -/
def BufferPool.create (slotSize : Nat) : BufferPool :=
  ⟨(List.range slotSize).map (fun a => (a, dwCANMessage.zero)), []⟩

/-- Take a free slot out of the pool (`get`); `none` when no slot is free. -/
def BufferPool.get (p : BufferPool) : Option ((Nat × dwCANMessage) × BufferPool) :=
  match p.free with
  | [] => none
  | s :: rest => some (s, ⟨rest, p.used⟩)

/-- Hand the slot at address `ptr` back to the pool (`put`): `none` when the
pool has handed out no slot at that address. -/
def BufferPool.put (p : BufferPool) (ptr : Nat) : Option BufferPool :=
  match p.used.find? (fun s => s.1 = ptr) with
  | none => none
  | some s => some ⟨p.free ++ [s], p.used.filter (fun u => decide (u.1 ≠ ptr))⟩

/-- Append whole elements to the queue (`enqueue`). -/
def ByteQueue.enqueue (q : ByteQueue) (data : List dwCANMessage) : ByteQueue := q ++ data

/-- Empty the queue (`clear`). -/
def ByteQueue.clear (_q : ByteQueue) : ByteQueue := []

/-! ## `AceinnaIMUSensor` -/

/-- The data members of `AceinnaIMUSensor`.  The `imu` pointer always points
at the static instance, which lives in the `World`. -/
structure AceinnaIMUSensor where
  m_ctx : Nat
  m_sal : Nat
  m_canSensor : dwSensorHandle_t
  m_virtualSensorFlag : Bool
  m_buffer : ByteQueue
  m_slot : BufferPool
  /-- Pointer to the configuration frames: `none` is `nullptr`, `some a` is an
  array whose element `i` is `a i`. -/
  configMessages : Option (Nat → dwCANMessage)
  configCount : Nat

/-- The constructor.  `configCount` has no initialiser in the source; its
indeterminate value is the last argument. -/
def AceinnaIMUSensor.new (ctx : Nat) (canSensor : dwSensorHandle_t) (slotSize : Nat)
    (configCount : Nat) : AceinnaIMUSensor :=
  { m_ctx := ctx
    m_sal := 0
    m_canSensor := canSensor
    m_virtualSensorFlag := true
    m_buffer := []
    m_slot := BufferPool.create slotSize
    configMessages := none
    configCount := configCount }

/-- Accessor `isVirtualSensor`. -/
def AceinnaIMUSensor.isVirtualSensor (self : AceinnaIMUSensor) : Bool :=
  self.m_virtualSensorFlag

/-- What `parseData` leaves behind: the status, `*frame`, `*consumed` (absent
for a null pointer) and the sensor. -/
structure ParseResult where
  status : dwStatus
  frame : dwIMUFrame
  consumed : Option Nat
  self : AceinnaIMUSensor

/-- Member `parseData(frame, consumed)`.  `frame` is the contents of `*frame`
on entry; `consumed` is `none` for a null pointer. -/
def AceinnaIMUSensor.parseData {σ : Type} (dw : DriveWorks) (imu : IMU σ)
    (self : AceinnaIMUSensor) (w : World σ) (frame : dwIMUFrame) (consumed : Option Nat) :
    ParseResult :=
  match self.m_buffer.peek with
  | none => ⟨DW_NOT_AVAILABLE, frame, consumed, self⟩
  | some reference =>
    let consumed := consumed.map (fun _ => dw.sizeofCANMessage)
    let frame : dwIMUFrame := ⟨0, []⟩
    let frame := { frame with timestamp_us := reference.timestamp_us }
    let r := imu.parseDataPacket w.instance_ reference frame
    if !r.1 then
      ⟨DW_FAILURE, r.2, consumed, { self with m_buffer := self.m_buffer.dequeue }⟩
    else
      ⟨DW_SUCCESS, r.2, consumed, { self with m_buffer := self.m_buffer.dequeue }⟩

/-! ## `std::string` operations used by `createSensor` -/

/-- Does `s` begin with `pat`? -/
def startsWith : List Char → List Char → Bool
  | _, [] => true
  | [], _ :: _ => false
  | c :: cs, p :: ps => c == p && startsWith cs ps

/-- Search of `std::string::find(pat)` from index `i` on: the index of the
first occurrence of `pat` in `s` (counted from `i`), `none` for `npos`. -/
def findFrom (pat : List Char) : List Char → Nat → Option Nat
  | [], i => if startsWith [] pat then some i else none
  | c :: cs, i => if startsWith (c :: cs) pat then some i else findFrom pat cs (i + 1)

/-- The call `s.find(pat)`. -/
def find (s pat : List Char) : Option Nat := findFrom pat s 0

/-- Search of `find_first_of` for a one-character set, from index `i` on. -/
def findCharFrom (ch : Char) : List Char → Nat → Option Nat
  | [], _ => none
  | c :: cs, i => if c == ch then some i else findCharFrom ch cs (i + 1)

/-- The call `s.find_first_of(",")`. -/
def find_first_of_comma (s : List Char) : Option Nat := findCharFrom ',' s 0

/-- The call `s.substr(pos, count)`, for `pos` within the string; `count = none`
is `npos`, that is, everything up to the end. -/
def substr (s : List Char) (pos : Nat) (count : Option Nat) : List Char :=
  match count with
  | none => s.drop pos
  | some n => (s.drop pos).take n

/-- The literal `"can-proto="`. -/
def searchString : List Char := "can-proto=".toList

/-- The three statements of `createSensor` that cut the protocol name out of
the parameter string, `pos` being where `"can-proto="` was found. -/
def extractProtocol (paramsString : List Char) (pos : Nat) : List Char :=
  let protocolString := substr paramsString (pos + searchString.length) none
  let pos := find_first_of_comma protocolString
  let protocolString := substr protocolString 0 pos
  protocolString

/-- Member `createSensor(sal, params)`. -/
def AceinnaIMUSensor.createSensor {σ : Type} (dw : DriveWorks) (imu : IMU σ)
    (self : AceinnaIMUSensor) (w : World σ) (sal : Nat) (params : List Char) :
    dwStatus × AceinnaIMUSensor × World σ :=
  let self := { self with m_sal := sal, m_virtualSensorFlag := false }
  let paramsString := params
  match find paramsString searchString with
  | none => (DW_FAILURE, self, w)
  | some pos =>
    let protocolString := extractProtocol paramsString pos
    -- create CAN bus interface
    let r := dw.dwSAL_createSensor w.trace self.m_canSensor params protocolString self.m_sal
    let w := { w with trace := w.trace ++
      [Event.salCreateSensor params protocolString self.m_sal r.1 r.2] }
    let self := { self with m_canSensor := r.2 }
    if r.1 ≠ DW_SUCCESS then (DW_FAILURE, self, w)
    else
      -- initialise the IMU
      let i := imu.init w.instance_ paramsString self.configMessages self.configCount
      let w := { w with trace := w.trace ++ [Event.imuInit paramsString i.1],
                        instance_ := i.2.2.2 }
      let self := { self with configMessages := i.2.1, configCount := i.2.2.1 % 256 }
      if !i.1 then (DW_FAILURE, self, w)
      else (DW_SUCCESS, self, w)

/-- The configuration loop of `startSensor`, with `n` iterations left and loop
index `i`: send `configMessages[i]`, stop with `DW_FAILURE` at the first send
that does not succeed. -/
def sendConfigMessages (dw : DriveWorks) (canSensor : dwSensorHandle_t)
    (configMessages : Nat → dwCANMessage) : Nat → Nat → List Event → dwStatus × List Event
  | 0, _, trace => (DW_SUCCESS, trace)
  | n + 1, i, trace =>
    let st := dw.dwSensorCAN_sendMessage trace (configMessages i) 100000 canSensor
    let trace := trace ++ [Event.canSend (configMessages i) 100000 canSensor st]
    if st ≠ DW_SUCCESS then (DW_FAILURE, trace)
    else sendConfigMessages dw canSensor configMessages n (i + 1) trace

/-- Member `startSensor()`. -/
def AceinnaIMUSensor.startSensor {σ : Type} (dw : DriveWorks) (self : AceinnaIMUSensor)
    (w : World σ) : dwStatus × World σ :=
  if !self.isVirtualSensor then
    let status := dw.dwSensor_start w.trace self.m_canSensor
    let w := { w with trace := w.trace ++ [Event.sensorStart self.m_canSensor status] }
    if status ≠ DW_SUCCESS then (status, w)
    else
      match self.configMessages with
      | some configMessages =>
        -- Send Configuration messages to IMU
        let r := sendConfigMessages dw self.m_canSensor configMessages self.configCount 0 w.trace
        (r.1, { w with trace := r.2 })
      | none => (DW_SUCCESS, w)
  else (DW_SUCCESS, w)

/-- Member `releaseSensor()`. -/
def AceinnaIMUSensor.releaseSensor {σ : Type} (dw : DriveWorks) (self : AceinnaIMUSensor)
    (w : World σ) : dwStatus × World σ :=
  if !self.isVirtualSensor then
    let st := dw.dwSAL_releaseSensor w.trace self.m_canSensor
    (st, { w with trace := w.trace ++ [Event.salReleaseSensor self.m_canSensor st] })
  else (DW_SUCCESS, w)

/-- Member `stopSensor()`. -/
def AceinnaIMUSensor.stopSensor {σ : Type} (dw : DriveWorks) (self : AceinnaIMUSensor)
    (w : World σ) : dwStatus × World σ :=
  if !self.isVirtualSensor then
    let st := dw.dwSensor_stop w.trace self.m_canSensor
    (st, { w with trace := w.trace ++ [Event.sensorStop self.m_canSensor st] })
  else (DW_SUCCESS, w)


/-- Member `resetSensor()`. -/
def AceinnaIMUSensor.resetSensor {σ : Type} (dw : DriveWorks) (self : AceinnaIMUSensor)
    (w : World σ) : dwStatus × AceinnaIMUSensor × World σ :=
  let self := { self with m_buffer := self.m_buffer.clear }
  if !self.isVirtualSensor then
    let st := dw.dwSensor_reset w.trace self.m_canSensor
    (st, self, { w with trace := w.trace ++ [Event.sensorReset self.m_canSensor st] })
  else (DW_SUCCESS, self, w)

/-- Member `returnRawData(data)`; `data` is `none` for a null pointer, else the
address of the slot. -/
def AceinnaIMUSensor.returnRawData (self : AceinnaIMUSensor) (data : Option Nat) :
    dwStatus × AceinnaIMUSensor :=
  match data with
  | none => (DW_INVALID_HANDLE, self)
  | some ptr =>
    match self.m_slot.put ptr with
    | none => (DW_INVALID_ARGUMENT, self)
    | some pool => (DW_SUCCESS, { self with m_slot := pool })

/-- Member `pushData(data, size, lenPushed)`: `data` is the records the `size`
bytes hold; answers the status, `*lenPushed` and the sensor. -/
def AceinnaIMUSensor.pushData (self : AceinnaIMUSensor) (data : List dwCANMessage)
    (size : Nat) : dwStatus × Nat × AceinnaIMUSensor :=
  (DW_SUCCESS, size, { self with m_buffer := self.m_buffer.enqueue data })

/-- What `readRawData` leaves behind: the status, `*data` (the slot's address
and the frame stored there; absent when `*data` was not written), `*size`, the
sensor and the world. -/
structure ReadResult (σ : Type) where
  status : dwStatus
  data : Option (Nat × dwCANMessage)
  size : Option Nat
  self : AceinnaIMUSensor
  world : World σ

/-- The `while` loop of `readRawData`.  `result` is the contents of the message
slot; the loop goes round at most `fuel` times and answers `none` when that is
not enough.  Otherwise it answers the slot's contents and the history at the
moment the loop is left. -/
def readLoop {σ : Type} (dw : DriveWorks) (imu : IMU σ) (inst : σ) (timeout_us : Nat)
    (canSensor : dwSensorHandle_t) : Nat → dwCANMessage → List Event →
    Option (dwCANMessage × List Event)
  | 0, _, _ => none
  | fuel + 1, result, trace =>
    let r := dw.dwSensorCAN_readMessage trace result timeout_us canSensor
    let trace := trace ++ [Event.canRead timeout_us canSensor r.1 r.2]
    if r.1 = DW_SUCCESS then
      if imu.isValidMessage inst r.2.id then some (r.2, trace)
      else readLoop dw imu inst timeout_us canSensor fuel r.2 trace
    else some (r.2, trace)

/-- Member `readRawData(data, size, timeout_us)`, its loop bounded by `fuel`. -/
def AceinnaIMUSensor.readRawData {σ : Type} (dw : DriveWorks) (imu : IMU σ)
    (self : AceinnaIMUSensor) (w : World σ) (timeout_us : Nat) (fuel : Nat) :
    Option (ReadResult σ) :=
  -- Get an empty message slot from plugin's empty message pool
  match self.m_slot.get with
  | none => some ⟨DW_BUFFER_FULL, none, none, self, w⟩
  | some (result, pool) =>
    -- Read sensor raw data to provided message slot
    match readLoop dw imu w.instance_ timeout_us self.m_canSensor fuel result.2 w.trace with
    | none => none
    | some (msg, trace) =>
      some ⟨DW_SUCCESS, some (result.1, msg), some dw.sizeofCANMessage,
        { self with m_slot := ⟨pool.free, pool.used ++ [(result.1, msg)]⟩ },
        { w with trace := trace }⟩

/-! ## The sensor registry and the exported functions -/

/-- The registry `g_sensorContext`: for each owned sensor, its address (the
handle given to the host) and the object. -/
abbrev SensorContext := List (Nat × AceinnaIMUSensor)

/-- The handles in the registry, in registry order. -/
def handles (g : SensorContext) : List Nat := g.map Prod.fst

/-- `SAMPLE_BUFFER_POOL_SIZE`. -/
def SAMPLE_BUFFER_POOL_SIZE : Nat := 5

/-- Function `checkValid(sensor)`. -/
def checkValid : SensorContext → Nat → Bool
  | [], _ => false
  | i :: rest, sensor => if i.1 = sensor then true else checkValid rest sensor

/-- Exported `_dwSensorPlugin_createHandle`.  `sensor` is `none` for a null
out-pointer; `addr` is the address `new` hands back and `configCount` the
indeterminate initial value of that member.  Answers the status, the registry,
`*sensor` and `properties->packetSize` (unchanged when nothing was written). -/
def _dwSensorPlugin_createHandle (dw : DriveWorks) (g : SensorContext) (sensor : Option Nat)
    (packetSize : Nat) (ctx : Nat) (addr : Nat) (configCount : Nat) :
    dwStatus × SensorContext × Option Nat × Nat :=
  match sensor with
  | none => (DW_INVALID_ARGUMENT, g, none, packetSize)
  | some _ =>
    let slotSize := SAMPLE_BUFFER_POOL_SIZE
    let sensorContext := AceinnaIMUSensor.new ctx DW_NULL_HANDLE slotSize configCount
    let g := g ++ [(addr, sensorContext)]
    (DW_SUCCESS, g, some addr, dw.sizeofCANMessage)

/-- The `for` loop of `_dwSensorPlugin_release` over the registry from `iter`
on: at the first entry whose address is `sensor`, stop and release that sensor,
erase the entry and answer `DW_SUCCESS`; `DW_FAILURE` when the end is reached.
Answers the status, the registry from `iter` on, and the world. -/
def releaseLoop {σ : Type} (dw : DriveWorks) (sensor : Nat) :
    SensorContext → World σ → dwStatus × SensorContext × World σ
  | [], w => (DW_FAILURE, [], w)
  | iter :: rest, w =>
    if iter.1 = sensor then
      let w := (iter.2.stopSensor dw w).2
      let w := (iter.2.releaseSensor dw w).2
      (DW_SUCCESS, rest, w)
    else
      let r := releaseLoop dw sensor rest w
      (r.1, iter :: r.2.1, r.2.2)

/-- Exported `_dwSensorPlugin_release`. -/
def _dwSensorPlugin_release {σ : Type} (dw : DriveWorks) (g : SensorContext) (w : World σ)
    (sensor : Nat) : dwStatus × SensorContext × World σ :=
  if !checkValid g sensor then (DW_INVALID_HANDLE, g, w)
  else releaseLoop dw sensor g w

/-- The sensor object at address `sensor`, for a handle that `checkValid` has
let through: the object the registry owns there. -/
def sensorAt : (g : SensorContext) → (sensor : Nat) → (!checkValid g sensor) ≠ true →
    AceinnaIMUSensor
  | [], _, h => absurd rfl h
  | i :: rest, sensor, h =>
    if hi : i.1 = sensor then i.2
    else sensorAt rest sensor (by simpa [checkValid, hi] using h)

/-- The registry after the object at address `sensor` has become `obj`. -/
def storeAt : SensorContext → Nat → AceinnaIMUSensor → SensorContext
  | [], _, _ => []
  | i :: rest, sensor, obj =>
    if i.1 = sensor then (i.1, obj) :: rest else i :: storeAt rest sensor obj

/-- Exported `_dwSensorPlugin_createSensor`. -/
def _dwSensorPlugin_createSensor {σ : Type} (dw : DriveWorks) (imu : IMU σ)
    (g : SensorContext) (w : World σ) (params : List Char) (sal : Nat) (sensor : Nat) :
    dwStatus × SensorContext × World σ :=
  if h : (!checkValid g sensor) = true then (DW_INVALID_HANDLE, g, w)
  else
    let sensorContext := sensorAt g sensor h
    let r := sensorContext.createSensor dw imu w sal params
    (r.1, storeAt g sensor r.2.1, r.2.2)

/-- Exported `_dwSensorPlugin_start`. -/
def _dwSensorPlugin_start {σ : Type} (dw : DriveWorks) (g : SensorContext) (w : World σ)
    (sensor : Nat) : dwStatus × SensorContext × World σ :=
  if h : (!checkValid g sensor) = true then (DW_INVALID_HANDLE, g, w)
  else
    let sensorContext := sensorAt g sensor h
    let r := sensorContext.startSensor dw w
    (r.1, g, r.2)

/-- Exported `_dwSensorPlugin_stop`. -/
def _dwSensorPlugin_stop {σ : Type} (dw : DriveWorks) (g : SensorContext) (w : World σ)
    (sensor : Nat) : dwStatus × SensorContext × World σ :=
  if h : (!checkValid g sensor) = true then (DW_INVALID_HANDLE, g, w)
  else
    let sensorContext := sensorAt g sensor h
    let r := sensorContext.stopSensor dw w
    (r.1, g, r.2)

/-- Exported `_dwSensorPlugin_reset`. -/
def _dwSensorPlugin_reset {σ : Type} (dw : DriveWorks) (g : SensorContext) (w : World σ)
    (sensor : Nat) : dwStatus × SensorContext × World σ :=
  if h : (!checkValid g sensor) = true then (DW_INVALID_HANDLE, g, w)
  else
    let sensorContext := sensorAt g sensor h
    let r := sensorContext.resetSensor dw w
    (r.1, storeAt g sensor r.2.1, r.2.2)

/-- Exported `_dwSensorPlugin_readRawData`, the loop of the member bounded by
`fuel`.  Answers the status, `*data`, `*size` (absent when not written), the
registry and the world. -/
def _dwSensorPlugin_readRawData {σ : Type} (dw : DriveWorks) (imu : IMU σ)
    (g : SensorContext) (w : World σ) (timeout_us : Nat) (sensor : Nat) (fuel : Nat) :
    Option (dwStatus × Option (Nat × dwCANMessage) × Option Nat × SensorContext × World σ) :=
  if h : (!checkValid g sensor) = true then some (DW_INVALID_HANDLE, none, none, g, w)
  else
    let sensorContext := sensorAt g sensor h
    match sensorContext.readRawData dw imu w timeout_us fuel with
    | none => none
    | some r => some (r.status, r.data, r.size, storeAt g sensor r.self, r.world)

/-- Exported `_dwSensorPlugin_returnRawData`. -/
def _dwSensorPlugin_returnRawData (g : SensorContext) (data : Option Nat) (sensor : Nat) :
    dwStatus × SensorContext :=
  if h : (!checkValid g sensor) = true then (DW_INVALID_HANDLE, g)
  else
    let sensorContext := sensorAt g sensor h
    let r := sensorContext.returnRawData data
    (r.1, storeAt g sensor r.2)

/-- Exported `_dwSensorPlugin_pushData`.  `lenPushed` is the contents of
`*lenPushed` on entry; answers the status, `*lenPushed` and the registry. -/
def _dwSensorPlugin_pushData (g : SensorContext) (lenPushed : Nat) (data : List dwCANMessage)
    (size : Nat) (sensor : Nat) : dwStatus × Nat × SensorContext :=
  if h : (!checkValid g sensor) = true then (DW_INVALID_HANDLE, lenPushed, g)
  else
    let sensorContext := sensorAt g sensor h
    let r := sensorContext.pushData data size
    (r.1, r.2.1, storeAt g sensor r.2.2)

/-- Exported `_dwSensorIMUPlugin_parseDataBuffer`.  Answers the status,
`*frame`, `*consumed` and the registry. -/
def _dwSensorIMUPlugin_parseDataBuffer {σ : Type} (dw : DriveWorks) (imu : IMU σ)
    (g : SensorContext) (w : World σ) (frame : dwIMUFrame) (consumed : Option Nat)
    (sensor : Nat) : dwStatus × dwIMUFrame × Option Nat × SensorContext :=
  if h : (!checkValid g sensor) = true then (DW_INVALID_HANDLE, frame, consumed, g)
  else
    let sensorContext := sensorAt g sensor h
    let r := sensorContext.parseData dw imu w frame consumed
    (r.status, r.frame, r.consumed, storeAt g sensor r.self)

/-! ## `openimu300_plugin.h` -/

/-- The enumeration `IMUPARAM_t`, enumerators in declaration order. -/
inductive IMUPARAM_t where
  | PARAM_RESET_ALGO_PS
  | PARAM_SET_PACKET_RATE_PS
  | PARAM_SET_PACKET_TYPE_PS
  | PARAM_SET_FILTER_CUTOFF_PS
  | PARAM_SET_ORIENTATION_PS
  | PARAM_PACKET_RATE
  | PARAM_PACKET_TYPE
  | PARAM_ORIENTATION
  | PARAM_RATE_LPF
  | PARAM_ACCEL_LPF
  | PARAM_RESET_ALGO
  | PARAM_MAX_PARAMS
deriving DecidableEq, Repr

namespace IMUPARAM_t

/-- The value of an enumerator: none has an initialiser, so the first is `0`
and each next one is one more, which is its position in the declaration. -/
def ordinal (p : IMUPARAM_t) : Nat := p.toCtorIdx

/-- The enumerators above the line "Add New BankOfPS parameter here". -/
def isBankOfPS : IMUPARAM_t → Bool
  | PARAM_RESET_ALGO_PS => true
  | PARAM_SET_PACKET_RATE_PS => true
  | PARAM_SET_PACKET_TYPE_PS => true
  | PARAM_SET_FILTER_CUTOFF_PS => true
  | PARAM_SET_ORIENTATION_PS => true
  | _ => false

/-- The enumerators between that line and "Add New Params here". -/
def isValueParam : IMUPARAM_t → Bool
  | PARAM_PACKET_RATE => true
  | PARAM_PACKET_TYPE => true
  | PARAM_ORIENTATION => true
  | PARAM_RATE_LPF => true
  | PARAM_ACCEL_LPF => true
  | PARAM_RESET_ALGO => true
  | _ => false

/-- All enumerators, in declaration order. -/
def all : List IMUPARAM_t :=
  [PARAM_RESET_ALGO_PS, PARAM_SET_PACKET_RATE_PS, PARAM_SET_PACKET_TYPE_PS,
   PARAM_SET_FILTER_CUTOFF_PS, PARAM_SET_ORIENTATION_PS, PARAM_PACKET_RATE,
   PARAM_PACKET_TYPE, PARAM_ORIENTATION, PARAM_RATE_LPF, PARAM_ACCEL_LPF,
   PARAM_RESET_ALGO, PARAM_MAX_PARAMS]

/-- The enumerator with value `n`, if there is one. -/
def ofOrdinal (n : Nat) : Option IMUPARAM_t := all.find? (fun p => p.ordinal = n)

/-- The traversal `for (i = 0; i < PARAM_MAX_PARAMS; i++)`: the parameters in
ascending order of value. -/
def traversal : List IMUPARAM_t :=
  (List.range PARAM_MAX_PARAMS.ordinal).filterMap ofOrdinal

end IMUPARAM_t

/-- The integer types of the payload declarations. -/
inductive CType where
  | uint8_t
  | uint16_t
  | uint64_t
deriving DecidableEq, Repr

/-- Width of a type in bits. -/
def CType.bits : CType → Nat
  | .uint8_t => 8
  | .uint16_t => 16
  | .uint64_t => 64

/-- One member of a payload struct: its type, its name, and the bit-field
width when it is declared with one. -/
structure Member where
  type : CType
  name : String
  bitField : Option Nat
deriving DecidableEq, Repr

/-- Declared width of a member in bits. -/
def Member.width (m : Member) : Nat := m.bitField.getD m.type.bits

/-- Payload struct `angularRate`. -/
def angularRate : List Member :=
  [⟨.uint16_t, "roll_rate", none⟩, ⟨.uint16_t, "pitch_rate", none⟩,
   ⟨.uint16_t, "yaw_rate", none⟩, ⟨.uint8_t, "pitch_merit", some 2⟩,
   ⟨.uint8_t, "roll_merit", some 2⟩, ⟨.uint8_t, "yaw_merit", some 2⟩,
   ⟨.uint8_t, "rsvd", some 2⟩, ⟨.uint8_t, "measurement_latency", none⟩]

/-- Payload struct `accelSensor`. -/
def accelSensor : List Member :=
  [⟨.uint16_t, "acceleration_x", none⟩, ⟨.uint16_t, "acceleration_y", none⟩,
   ⟨.uint16_t, "acceleration_z", none⟩, ⟨.uint8_t, "lateral_merit", some 2⟩,
   ⟨.uint8_t, "longitudinal_merit", some 2⟩, ⟨.uint8_t, "vertical_merit", some 2⟩,
   ⟨.uint8_t, "transmit_rate", some 2⟩, ⟨.uint8_t, "rsvd", none⟩]

/-- Payload struct `magSensor`. -/
def magSensor : List Member :=
  [⟨.uint16_t, "mag_x", none⟩, ⟨.uint16_t, "mag_y", none⟩,
   ⟨.uint16_t, "mag_z", none⟩, ⟨.uint16_t, "unuzed", none⟩]

/-- Payload struct `slopeSensor`. -/
def slopeSensor : List Member :=
  [⟨.uint64_t, "pitch", some 24⟩, ⟨.uint64_t, "roll", some 24⟩,
   ⟨.uint64_t, "pitch_compensation", some 2⟩, ⟨.uint64_t, "pitch_merit", some 2⟩,
   ⟨.uint64_t, "roll_compensation", some 2⟩, ⟨.uint64_t, "roll_merit", some 2⟩,
   ⟨.uint64_t, "measure_latency", some 8⟩]

/-- The four sensor payload layouts. -/
def payloadLayouts : List (List Member) := [angularRate, accelSensor, magSensor, slopeSensor]

/-- Sum of the declared widths. -/
def totalWidth (l : List Member) : Nat := (l.map Member.width).sum

/-- Consecutive layout in declaration order starting at bit `start`: each
member with the bit range `[offset, offset + width)` it gets. -/
def layoutFrom : Nat → List Member → List (Nat × Nat)
  | _, [] => []
  | start, m :: ms => (start, start + m.width) :: layoutFrom (start + m.width) ms

/-- Consecutive layout from bit 0. -/
def layout (l : List Member) : List (Nat × Nat) := layoutFrom 0 l


/-! ## A sample runtime and a sample IMU -/

/-- Number of CAN reads in a history. -/
def readCount : List Event → Nat
  | [] => 0
  | Event.canRead _ _ _ _ :: es => readCount es + 1
  | _ :: es => readCount es

/-- A runtime that creates the CAN sensor `7` for protocol `can.socket` and
nothing else, starts every sensor but the null one, refuses to send the frame
with identifier `0x666`, and answers the reads with the frames of `script`, one
after the other, then with time-outs that leave the slot alone. -/
def scriptedDW (script : List dwCANMessage) : DriveWorks :=
  { sizeofCANMessage := 80
    dwSAL_createSensor := fun _ handle _ protocol _ =>
      if protocol = "can.socket".toList then (DW_SUCCESS, 7) else (DW_FAILURE, handle)
    dwSensor_start := fun _ h => if h = DW_NULL_HANDLE then DW_INVALID_HANDLE else DW_SUCCESS
    dwSensor_stop := fun _ h => if h = DW_NULL_HANDLE then DW_INVALID_HANDLE else DW_SUCCESS
    dwSensor_reset := fun _ h => if h = DW_NULL_HANDLE then DW_INVALID_HANDLE else DW_SUCCESS
    dwSAL_releaseSensor := fun _ h =>
      if h = DW_NULL_HANDLE then DW_INVALID_HANDLE else DW_SUCCESS
    dwSensorCAN_sendMessage := fun _ msg _ _ => if msg.id = 0x666 then DW_TIME_OUT else DW_SUCCESS
    dwSensorCAN_readMessage := fun trace slot _ _ =>
      match script.get? (readCount trace) with
      | some f => (DW_SUCCESS, f)
      | none => (DW_TIME_OUT, slot) }

/-- A stateless IMU: `init` succeeds, with two configuration frames, when the
parameter string names a packet rate, and otherwise fails without touching its
out-parameters; a frame is a data frame when its identifier is at least
`0x100`; decoding needs a payload of eight bytes. -/
def sampleIMU : IMU Unit :=
  { init := fun s params msgs count =>
      if (find params "packet-rate=".toList).isSome then
        (true, some (fun i => ⟨0, 0x200 + i, 8, []⟩), 2, s)
      else (false, msgs, count, s)
    isValidMessage := fun _ id => decide (0x100 ≤ id)
    parseDataPacket := fun _ packet frame =>
      if packet.size = 8 then (true, { frame with channels := packet.data.map Int.ofNat })
      else (false, frame) }

/-- The sensor `createHandle` makes. -/
def freshSensor : AceinnaIMUSensor := AceinnaIMUSensor.new 1 DW_NULL_HANDLE SAMPLE_BUFFER_POOL_SIZE 0

/-- The world before any call. -/
def world0 : World Unit := ⟨[], ()⟩

/-- The history entries of sending `configMessages[0]`, ..., `configMessages[n-1]`,
in this order, each with success. -/
def sentOk (canSensor : dwSensorHandle_t) (cm : Nat → dwCANMessage) (n : Nat) : List Event :=
  (List.range n).map (fun j => Event.canSend (cm j) 100000 canSensor DW_SUCCESS)

/-- The history once the CAN sensor has been started from history `trace` and
frames `0 .. i-1` have been sent, all with success. -/
def historyBeforeSend (trace : List Event) (canSensor : dwSensorHandle_t)
    (cm : Nat → dwCANMessage) (i : Nat) : List Event :=
  (trace ++ [Event.sensorStart canSensor DW_SUCCESS]) ++ sentOk canSensor cm i

/-- The runtime's answer to sending frame `i` at that point. -/
def sendAnswer (dw : DriveWorks) (trace : List Event) (canSensor : dwSensorHandle_t)
    (cm : Nat → dwCANMessage) (i : Nat) : dwStatus :=
  dw.dwSensorCAN_sendMessage (historyBeforeSend trace canSensor cm i) (cm i) 100000 canSensor

/-- Three configuration frames with identifiers `0x665`, `0x666`, `0x667`. -/
def sampleConfig : Nat → dwCANMessage := fun i => ⟨0, 0x665 + i, 8, []⟩

/-- A created sensor on CAN sensor `7` holding the three sample frames. -/
def configuredSensor : AceinnaIMUSensor :=
  { freshSensor with
    m_virtualSensorFlag := false
    m_canSensor := 7
    configMessages := some sampleConfig
    configCount := 3 }

/-- The protocol name `createSensor` computes for a parameter string (the empty
name when the string does not hold `"can-proto="` and none is computed). -/
def protocolOf (params : List Char) : List Char :=
  match find params searchString with
  | some pos => extractProtocol params pos
  | none => []

/-- The call `createSensor(3, "can-proto=can.socket")` on the fresh sensor, with
the sample runtime and IMU: the string names no IMU directive. -/
def createWithoutDirectives : dwStatus × AceinnaIMUSensor × World Unit :=
  freshSensor.createSensor (scriptedDW []) sampleIMU world0 3 "can-proto=can.socket".toList

/-- From history `trace` on, with `slot` in the message slot, the runtime
answers the next CAN reads with the frames of the list, in this order, each
with `DW_SUCCESS`. -/
def readsYield (dw : DriveWorks) (timeout_us : Nat) (canSensor : dwSensorHandle_t) :
    List dwCANMessage → dwCANMessage → List Event → Prop
  | [], _, _ => True
  | f :: fs, slot, trace =>
    dw.dwSensorCAN_readMessage trace slot timeout_us canSensor = (DW_SUCCESS, f) ∧
    readsYield dw timeout_us canSensor fs f
      (trace ++ [Event.canRead timeout_us canSensor DW_SUCCESS f])

/-- The history entries of reading the frames of the list, in this order, each
with `DW_SUCCESS`. -/
def readEvents (timeout_us : Nat) (canSensor : dwSensorHandle_t) (fs : List dwCANMessage) :
    List Event :=
  fs.map (fun f => Event.canRead timeout_us canSensor DW_SUCCESS f)

/-- The registry after two `createHandle` calls that allocated the sensors at
addresses `100` and `200`. -/
def twoHandles : SensorContext :=
  (_dwSensorPlugin_createHandle (scriptedDW [])
    (_dwSensorPlugin_createHandle (scriptedDW []) [] (some 0) 0 1 100 0).2.1
    (some 0) 0 1 200 0).2.1

/-- The parameter string `"can-proto=can.socket,device=can0"`. -/
def socketParams : List Char := "can-proto=can.socket,device=can0".toList

/-- The runtime's answer to the `dwSAL_createSensor` call of
`createSensor(sal, params)` made on `self` in world `w`: the status and the
handle written. -/
def createAnswer {σ : Type} (dw : DriveWorks) (self : AceinnaIMUSensor) (w : World σ)
    (sal : Nat) (params : List Char) : dwStatus × dwSensorHandle_t :=
  dw.dwSAL_createSensor w.trace self.m_canSensor params (protocolOf params) sal

/-- The IMU's answer to the `init` call of `createSensor(sal, params)` made on
`self` in world `w`: the result, the list and count written, the instance. -/
def initAnswer {σ : Type} (imu : IMU σ) (self : AceinnaIMUSensor) (w : World σ)
    (params : List Char) : Bool × Option (Nat → dwCANMessage) × Nat × σ :=
  imu.init w.instance_ params self.configMessages self.configCount

/-- The parameter string `"can-proto=can.socket,packet-rate=50"`. -/
def directiveParams : List Char := "can-proto=can.socket,packet-rate=50".toList

/-- The call `createSensor(3, "can-proto=can.socket,packet-rate=50")` on the
fresh sensor, with the sample runtime and IMU. -/
def createWithDirectives : dwStatus × AceinnaIMUSensor × World Unit :=
  freshSensor.createSensor (scriptedDW []) sampleIMU world0 3 directiveParams

/-- A second call, `createSensor(3, "packet-rate=50")`, on the sensor and in
the world the first call left: the string does not name the protocol. -/
def createAgainWithoutProtocol : dwStatus × AceinnaIMUSensor × World Unit :=
  createWithDirectives.2.1.createSensor (scriptedDW []) sampleIMU createWithDirectives.2.2 3
    "packet-rate=50".toList

/-! ## Theorems -/

/-- C1: when the buffer holds a head message, `parseData` leaves exactly the
messages behind the head in the buffer, returns `DW_FAILURE` exactly when
`parseDataPacket` answers false for the head, and `DW_SUCCESS` exactly when it
answers true. -/
theorem parseData_drops_head {σ : Type} (dw : DriveWorks) (imu : IMU σ)
    (self : AceinnaIMUSensor) (w : World σ) (frame : dwIMUFrame) (consumed : Option Nat)
    (head : dwCANMessage) (rest : List dwCANMessage) (h : self.m_buffer = head :: rest) :
    (self.parseData dw imu w frame consumed).self.m_buffer = rest ∧
    ((self.parseData dw imu w frame consumed).status = DW_FAILURE ↔
      (imu.parseDataPacket w.instance_ head ⟨head.timestamp_us, []⟩).1 = false) ∧
    ((self.parseData dw imu w frame consumed).status = DW_SUCCESS ↔
      (imu.parseDataPacket w.instance_ head ⟨head.timestamp_us, []⟩).1 = true) := by
  unfold AceinnaIMUSensor.parseData
  simp only [h, ByteQueue.peek, ByteQueue.dequeue, List.head?_cons, List.tail_cons]
  cases hp : (imu.parseDataPacket w.instance_ head ⟨head.timestamp_us, []⟩).1 <;> simp

/-- C1 at a buffer of two frames whose head has a short payload: the head is
dropped, the second frame stays, the status is `DW_FAILURE`. -/
theorem parseData_drops_head_witness :
    ({ freshSensor with m_buffer := [⟨5, 0x100, 3, [1, 2, 3]⟩, ⟨6, 0x101, 8, []⟩] }
        : AceinnaIMUSensor).m_buffer = [⟨5, 0x100, 3, [1, 2, 3]⟩, ⟨6, 0x101, 8, []⟩] ∧
    (({ freshSensor with m_buffer := [⟨5, 0x100, 3, [1, 2, 3]⟩, ⟨6, 0x101, 8, []⟩] }
        : AceinnaIMUSensor).parseData (scriptedDW []) sampleIMU world0 ⟨0, []⟩ none).self.m_buffer
      = [⟨6, 0x101, 8, []⟩] :=
  ⟨rfl, (parseData_drops_head (scriptedDW []) sampleIMU _ world0 ⟨0, []⟩ none
    ⟨5, 0x100, 3, [1, 2, 3]⟩ [⟨6, 0x101, 8, []⟩] rfl).1⟩


theorem sentOk_succ (canSensor : dwSensorHandle_t) (cm : Nat → dwCANMessage) (n : Nat) :
    sentOk canSensor cm (n + 1) =
      sentOk canSensor cm n ++ [Event.canSend (cm n) 100000 canSensor DW_SUCCESS] := by
  simp [sentOk, List.range_succ]

/-- The loop from index `i`, entered with frames `0 .. i-1` sent: when the next
`n` sends all succeed, all of them are made, in order. -/
theorem sendConfigMessages_all_ok (dw : DriveWorks) (h : dwSensorHandle_t)
    (cm : Nat → dwCANMessage) (base : List Event) :
    ∀ n i, (∀ j, j < n →
        dw.dwSensorCAN_sendMessage (base ++ sentOk h cm (i + j)) (cm (i + j)) 100000 h
          = DW_SUCCESS) →
      sendConfigMessages dw h cm n i (base ++ sentOk h cm i)
        = (DW_SUCCESS, base ++ sentOk h cm (i + n)) := by
  intro n
  induction n with
  | zero => intro i _; simp [sendConfigMessages]
  | succ n ih =>
    intro i hok
    have h0 := hok 0 (Nat.succ_pos n)
    simp only [Nat.add_zero] at h0
    have hrest : ∀ j, j < n →
        dw.dwSensorCAN_sendMessage (base ++ sentOk h cm (i + 1 + j)) (cm (i + 1 + j)) 100000 h
          = DW_SUCCESS := by
      intro j hj
      have := hok (j + 1) (Nat.succ_lt_succ hj)
      rwa [show i + (j + 1) = i + 1 + j by omega] at this
    have := ih (i + 1) hrest
    rw [sentOk_succ, ← List.append_assoc] at this
    simp only [sendConfigMessages, h0, ne_eq, not_true_eq_false, if_false]
    rw [this]
    congr 2
    rw [show i + (n + 1) = i + 1 + n by omega]

/-- The loop from index `i`, entered with frames `0 .. i-1` sent: when the
send `k` steps on is the first not to succeed, the loop makes the sends up to
that one and no more, and answers `DW_FAILURE`. -/
theorem sendConfigMessages_first_fail (dw : DriveWorks) (h : dwSensorHandle_t)
    (cm : Nat → dwCANMessage) (base : List Event) :
    ∀ n i k, k < n →
      (∀ j, j < k →
        dw.dwSensorCAN_sendMessage (base ++ sentOk h cm (i + j)) (cm (i + j)) 100000 h
          = DW_SUCCESS) →
      dw.dwSensorCAN_sendMessage (base ++ sentOk h cm (i + k)) (cm (i + k)) 100000 h
        ≠ DW_SUCCESS →
      sendConfigMessages dw h cm n i (base ++ sentOk h cm i)
        = (DW_FAILURE, (base ++ sentOk h cm (i + k)) ++
            [Event.canSend (cm (i + k)) 100000 h
              (dw.dwSensorCAN_sendMessage (base ++ sentOk h cm (i + k)) (cm (i + k)) 100000 h)]) := by
  intro n
  induction n with
  | zero => intro i k hk; omega
  | succ n ih =>
    intro i k hk hok hbad
    cases k with
    | zero =>
      simp only [Nat.add_zero] at hbad ⊢
      simp [sendConfigMessages, hbad]
    | succ k =>
      have h0 := hok 0 (Nat.succ_pos k)
      simp only [Nat.add_zero] at h0
      have hrest : ∀ j, j < k →
          dw.dwSensorCAN_sendMessage (base ++ sentOk h cm (i + 1 + j)) (cm (i + 1 + j)) 100000 h
            = DW_SUCCESS := by
        intro j hj
        have := hok (j + 1) (Nat.succ_lt_succ hj)
        rwa [show i + (j + 1) = i + 1 + j by omega] at this
      have hbad1 : dw.dwSensorCAN_sendMessage (base ++ sentOk h cm (i + 1 + k))
          (cm (i + 1 + k)) 100000 h ≠ DW_SUCCESS := by
        rwa [show i + (k + 1) = i + 1 + k by omega] at hbad
      have := ih (i + 1) k (Nat.lt_of_succ_lt_succ hk) hrest hbad1
      rw [sentOk_succ, ← List.append_assoc] at this
      simp only [sendConfigMessages, h0, ne_eq, not_true_eq_false, if_false]
      rw [this, show i + (k + 1) = i + 1 + k by omega]

/-- C2: on a non-virtual sensor whose CAN sensor starts, `startSensor` sends
`configMessages[0]`, `configMessages[1]`, ... in index order, each once: when
all `configCount` sends succeed, the calls after the start are exactly these
`configCount` sends and the result is `DW_SUCCESS`; when send `k` is the first
not to succeed, the calls are exactly the sends `0 .. k` and the result is
`DW_FAILURE`. -/
theorem startSensor_sends_in_order {σ : Type} (dw : DriveWorks) (self : AceinnaIMUSensor)
    (w : World σ) (cm : Nat → dwCANMessage)
    (hvirt : self.m_virtualSensorFlag = false)
    (hstart : dw.dwSensor_start w.trace self.m_canSensor = DW_SUCCESS)
    (hcm : self.configMessages = some cm) :
    ((∀ i, i < self.configCount → sendAnswer dw w.trace self.m_canSensor cm i = DW_SUCCESS) →
      self.startSensor dw w =
        (DW_SUCCESS,
          { w with trace := historyBeforeSend w.trace self.m_canSensor cm self.configCount })) ∧
    (∀ k, k < self.configCount →
      (∀ i, i < k → sendAnswer dw w.trace self.m_canSensor cm i = DW_SUCCESS) →
      sendAnswer dw w.trace self.m_canSensor cm k ≠ DW_SUCCESS →
      self.startSensor dw w =
        (DW_FAILURE,
          { w with trace := historyBeforeSend w.trace self.m_canSensor cm k ++
                              [Event.canSend (cm k) 100000 self.m_canSensor
                                (sendAnswer dw w.trace self.m_canSensor cm k)] })) := by
  have hnil : sentOk self.m_canSensor cm 0 = [] := rfl
  constructor
  · intro hok
    have := sendConfigMessages_all_ok dw self.m_canSensor cm
      (w.trace ++ [Event.sensorStart self.m_canSensor DW_SUCCESS]) self.configCount 0
      (by intro j hj; simpa [sendAnswer, historyBeforeSend] using hok j hj)
    rw [hnil, List.append_nil, Nat.zero_add] at this
    simp [AceinnaIMUSensor.startSensor, AceinnaIMUSensor.isVirtualSensor, hvirt, hstart, hcm,
      this, historyBeforeSend]
  · intro k hk hok hbad
    have := sendConfigMessages_first_fail dw self.m_canSensor cm
      (w.trace ++ [Event.sensorStart self.m_canSensor DW_SUCCESS]) self.configCount 0 k hk
      (by intro j hj; simpa [sendAnswer, historyBeforeSend] using hok j hj)
      (by simpa [sendAnswer, historyBeforeSend] using hbad)
    rw [hnil, List.append_nil] at this
    simp only [Nat.zero_add] at this
    simp [AceinnaIMUSensor.startSensor, AceinnaIMUSensor.isVirtualSensor, hvirt, hstart, hcm,
      this, historyBeforeSend, sendAnswer]


/-- C2 at three frames of which the runtime refuses the second: the first two
are sent, in order, the third is not, and the result is `DW_FAILURE`. -/
theorem startSensor_sends_in_order_witness :
    configuredSensor.m_virtualSensorFlag = false ∧
    (scriptedDW []).dwSensor_start world0.trace configuredSensor.m_canSensor = DW_SUCCESS ∧
    sendAnswer (scriptedDW []) world0.trace 7 sampleConfig 1 ≠ DW_SUCCESS ∧
    configuredSensor.startSensor (scriptedDW []) world0 =
      (DW_FAILURE,
        ⟨[Event.sensorStart 7 DW_SUCCESS,
          Event.canSend ⟨0, 0x665, 8, []⟩ 100000 7 DW_SUCCESS,
          Event.canSend ⟨0, 0x666, 8, []⟩ 100000 7 DW_TIME_OUT], ()⟩) :=
  ⟨rfl, by decide, by decide,
    (startSensor_sends_in_order (scriptedDW []) configuredSensor world0 sampleConfig
      rfl (by decide) rfl).2 1 (by decide)
      (by intro i hi; interval_cases i; decide) (by decide)⟩

theorem startsWith_iff (s pat : List Char) : startsWith s pat = true ↔ pat <+: s := by
  induction s generalizing pat with
  | nil =>
    cases pat with
    | nil => simp [startsWith]
    | cons p ps => simp [startsWith]
  | cons c cs ih =>
    cases pat with
    | nil => simp [startsWith]
    | cons p ps =>
      simp only [startsWith, Bool.and_eq_true, beq_iff_eq, ih, List.cons_prefix_cons]
      constructor
      · rintro ⟨h1, h2⟩; exact ⟨h1.symm, h2⟩
      · rintro ⟨h1, h2⟩; exact ⟨h1.symm, h2⟩

/-- The search answers `npos` exactly for a string that does not hold the
pattern. -/
theorem findFrom_eq_none_iff (pat : List Char) (s : List Char) (i : Nat) :
    findFrom pat s i = none ↔ ¬ pat <:+: s := by
  induction s generalizing i with
  | nil =>
    cases pat with
    | nil => simp [findFrom, startsWith]
    | cons p ps => simp [findFrom, startsWith]
  | cons c cs ih =>
    unfold findFrom
    by_cases hp : startsWith (c :: cs) pat = true
    · simp only [hp, if_true]
      have := (startsWith_iff _ _).1 hp
      simp [this.isInfix]
    · simp only [hp, Bool.false_eq_true, if_false, ih]
      have hnp : ¬ pat <+: c :: cs := fun h => hp ((startsWith_iff _ _).2 h)
      rw [List.infix_cons_iff]
      tauto

theorem find_eq_none_iff (s pat : List Char) : find s pat = none ↔ ¬ pat <:+: s :=
  findFrom_eq_none_iff pat s 0

/-- C3: for a parameter string that does not hold `"can-proto="`, `createSensor`
returns `DW_FAILURE` having called neither `dwSAL_createSensor` nor `init`: the
history and the IMU instance are as before, and of the sensor only `m_sal` and
the virtual flag were written. -/
theorem createSensor_without_protocol {σ : Type} (dw : DriveWorks) (imu : IMU σ)
    (self : AceinnaIMUSensor) (w : World σ) (sal : Nat) (params : List Char)
    (h : ¬ searchString <:+: params) :
    self.createSensor dw imu w sal params =
      (DW_FAILURE, { self with m_sal := sal, m_virtualSensorFlag := false }, w) := by
  have hf := (find_eq_none_iff params searchString).2 h
  simp [AceinnaIMUSensor.createSensor, hf]

/-- C3 at the empty parameter string. -/
theorem createSensor_without_protocol_witness :
    ¬ searchString <:+: [] ∧
    (freshSensor.createSensor (scriptedDW []) sampleIMU world0 3 []).1 = DW_FAILURE ∧
    (freshSensor.createSensor (scriptedDW []) sampleIMU world0 3 []).2.2.trace = [] :=
  have h : ¬ searchString <:+: [] := by decide
  ⟨h, by rw [createSensor_without_protocol _ _ _ _ _ _ h],
    by rw [createSensor_without_protocol _ _ _ _ _ _ h]; rfl⟩

theorem find_isSome_iff (s pat : List Char) : (∃ pos, find s pat = some pos) ↔ pat <:+: s := by
  have := find_eq_none_iff s pat
  cases hf : find s pat with
  | none => simpa [hf] using this
  | some pos =>
    rw [hf] at this
    simp only [reduceCtorEq, false_iff, not_not] at this
    simp [this]

/-- C4: `createSensor` returns `DW_SUCCESS` exactly when the parameter string
holds `"can-proto="`, `dwSAL_createSensor` (called with the string and the
protocol name cut out of it) answers `DW_SUCCESS`, and `init` answers true; in
every other case, in particular whenever `init` answers false, it returns
`DW_FAILURE`. -/
theorem createSensor_success_iff {σ : Type} (dw : DriveWorks) (imu : IMU σ)
    (self : AceinnaIMUSensor) (w : World σ) (sal : Nat) (params : List Char) :
    ((self.createSensor dw imu w sal params).1 = DW_SUCCESS ↔
      (searchString <:+: params ∧
       (dw.dwSAL_createSensor w.trace self.m_canSensor params (protocolOf params) sal).1
          = DW_SUCCESS ∧
       (imu.init w.instance_ params self.configMessages self.configCount).1 = true)) ∧
    ((self.createSensor dw imu w sal params).1 = DW_SUCCESS ∨
      (self.createSensor dw imu w sal params).1 = DW_FAILURE) ∧
    ((imu.init w.instance_ params self.configMessages self.configCount).1 = false →
      (self.createSensor dw imu w sal params).1 = DW_FAILURE) := by
  cases hf : find params searchString with
  | none =>
    have hno := (find_eq_none_iff params searchString).1 hf
    simp [AceinnaIMUSensor.createSensor, hf, hno]
  | some pos =>
    have hyes := (find_isSome_iff params searchString).1 ⟨pos, hf⟩
    by_cases hc : (dw.dwSAL_createSensor w.trace self.m_canSensor params
        (extractProtocol params pos) sal).1 = DW_SUCCESS
    · cases hi : (imu.init w.instance_ params self.configMessages self.configCount).1 <;>
        simp [AceinnaIMUSensor.createSensor, protocolOf, hf, hyes, hc, hi]
    · simp [AceinnaIMUSensor.createSensor, protocolOf, hf, hyes, hc]

/-- C4 at a string with the protocol token and no IMU directive: the CAN
sensor is created, `init` answers false, and `createSensor` returns
`DW_FAILURE`. -/
theorem createSensor_success_iff_witness :
    (sampleIMU.init world0.instance_ "can-proto=can.socket".toList
        freshSensor.configMessages freshSensor.configCount).1 = false ∧
    (freshSensor.createSensor (scriptedDW []) sampleIMU world0 3
        "can-proto=can.socket".toList).1 = DW_FAILURE :=
  ⟨by decide,
    (createSensor_success_iff (scriptedDW []) sampleIMU freshSensor world0 3
      "can-proto=can.socket".toList).2.2 (by decide)⟩

/-- The configuration loop only appends sends to the history, each of a frame
`configMessages[j]` with `j` among the `n` indices from `i` on. -/
theorem sendConfigMessages_sends (dw : DriveWorks) (h : dwSensorHandle_t)
    (cm : Nat → dwCANMessage) :
    ∀ n i trace, ∃ sends : List Event,
      (sendConfigMessages dw h cm n i trace).2 = trace ++ sends ∧
      ∀ e ∈ sends, ∃ j s, i ≤ j ∧ j < i + n ∧ e = Event.canSend (cm j) 100000 h s := by
  intro n
  induction n with
  | zero => intro i trace; exact ⟨[], by simp [sendConfigMessages]⟩
  | succ n ih =>
    intro i trace
    unfold sendConfigMessages
    simp only
    split
    · refine ⟨[Event.canSend (cm i) 100000 h
        (dw.dwSensorCAN_sendMessage trace (cm i) 100000 h)], rfl, ?_⟩
      intro e he
      rw [List.mem_singleton] at he
      exact ⟨i, _, le_refl i, by omega, he⟩
    · obtain ⟨sends, hs, hall⟩ := ih (i + 1)
        (trace ++ [Event.canSend (cm i) 100000 h
          (dw.dwSensorCAN_sendMessage trace (cm i) 100000 h)])
      refine ⟨Event.canSend (cm i) 100000 h
        (dw.dwSensorCAN_sendMessage trace (cm i) 100000 h) :: sends, ?_, ?_⟩
      · rw [hs]; simp
      · intro e he
        rcases List.mem_cons.1 he with rfl | he
        · exact ⟨i, _, le_refl i, by omega, rfl⟩
        · obtain ⟨j, s, h1, h2, h3⟩ := hall e he
          exact ⟨j, s, by omega, by omega, h3⟩

/-- What a `createSensor` that did not succeed leaves behind, by the place
where it failed: the missing token, the creation of the CAN sensor, or
`init`. -/
theorem createSensor_failed_cases {σ : Type} (dw : DriveWorks) (imu : IMU σ)
    (self : AceinnaIMUSensor) (w : World σ) (sal : Nat) (params : List Char)
    (hfail : (self.createSensor dw imu w sal params).1 ≠ DW_SUCCESS) :
    (¬ searchString <:+: params ∧
      self.createSensor dw imu w sal params =
        (DW_FAILURE, { self with m_sal := sal, m_virtualSensorFlag := false }, w)) ∨
    (searchString <:+: params ∧ (createAnswer dw self w sal params).1 ≠ DW_SUCCESS ∧
      self.createSensor dw imu w sal params =
        (DW_FAILURE,
          { self with m_sal := sal, m_virtualSensorFlag := false,
                      m_canSensor := (createAnswer dw self w sal params).2 },
          ⟨w.trace ++ [Event.salCreateSensor params (protocolOf params) sal
              (createAnswer dw self w sal params).1 (createAnswer dw self w sal params).2],
            w.instance_⟩)) ∨
    (searchString <:+: params ∧ (createAnswer dw self w sal params).1 = DW_SUCCESS ∧
      (initAnswer imu self w params).1 = false ∧
      self.createSensor dw imu w sal params =
        (DW_FAILURE,
          { self with m_sal := sal, m_virtualSensorFlag := false,
                      m_canSensor := (createAnswer dw self w sal params).2,
                      configMessages := (initAnswer imu self w params).2.1,
                      configCount := (initAnswer imu self w params).2.2.1 % 256 },
          ⟨w.trace ++ [Event.salCreateSensor params (protocolOf params) sal
              DW_SUCCESS (createAnswer dw self w sal params).2,
              Event.imuInit params false],
            (initAnswer imu self w params).2.2.2⟩)) := by
  revert hfail
  cases hf : find params searchString with
  | none =>
    intro _
    left
    exact ⟨(find_eq_none_iff params searchString).1 hf,
      by simp [AceinnaIMUSensor.createSensor, hf]⟩
  | some pos =>
    have hyes := (find_isSome_iff params searchString).1 ⟨pos, hf⟩
    have hproto : protocolOf params = extractProtocol params pos := by simp [protocolOf, hf]
    by_cases hc : (dw.dwSAL_createSensor w.trace self.m_canSensor params
        (extractProtocol params pos) sal).1 = DW_SUCCESS
    · cases hi : (imu.init w.instance_ params self.configMessages self.configCount).1
      · intro _
        right; right
        refine ⟨hyes, by simp [createAnswer, hproto, hc], by simp [initAnswer, hi], ?_⟩
        simp [AceinnaIMUSensor.createSensor, createAnswer, initAnswer, hproto, hf, hc, hi]
      · intro hfail
        exact absurd (by simp [AceinnaIMUSensor.createSensor, hf, hc, hi]) hfail
    · intro _
      right; left
      refine ⟨hyes, by simp [createAnswer, hproto, hc], ?_⟩
      simp [AceinnaIMUSensor.createSensor, createAnswer, hproto, hf, hc]

/-- What `startSensor` does on a non-virtual sensor, by the answer of
`dwSensor_start` and by whether the sensor holds a configuration list. -/
theorem startSensor_cases {σ : Type} (dw : DriveWorks) (self : AceinnaIMUSensor)
    (w : World σ) (hvirt : self.m_virtualSensorFlag = false) :
    (dw.dwSensor_start w.trace self.m_canSensor ≠ DW_SUCCESS →
      self.startSensor dw w =
        (dw.dwSensor_start w.trace self.m_canSensor,
          ⟨w.trace ++ [Event.sensorStart self.m_canSensor
              (dw.dwSensor_start w.trace self.m_canSensor)], w.instance_⟩)) ∧
    (dw.dwSensor_start w.trace self.m_canSensor = DW_SUCCESS →
      self.configMessages = none →
      self.startSensor dw w =
        (DW_SUCCESS,
          ⟨w.trace ++ [Event.sensorStart self.m_canSensor DW_SUCCESS], w.instance_⟩)) ∧
    (dw.dwSensor_start w.trace self.m_canSensor = DW_SUCCESS →
      ∀ cm, self.configMessages = some cm →
        self.startSensor dw w =
          ((sendConfigMessages dw self.m_canSensor cm self.configCount 0
              (w.trace ++ [Event.sensorStart self.m_canSensor DW_SUCCESS])).1,
            ⟨(sendConfigMessages dw self.m_canSensor cm self.configCount 0
              (w.trace ++ [Event.sensorStart self.m_canSensor DW_SUCCESS])).2, w.instance_⟩) ∧
        ∃ sends : List Event,
          (self.startSensor dw w).2.trace =
            w.trace ++ Event.sensorStart self.m_canSensor DW_SUCCESS :: sends ∧
          ∀ e ∈ sends, ∃ j s, j < self.configCount ∧
            e = Event.canSend (cm j) 100000 self.m_canSensor s) := by
  refine ⟨?_, ?_, ?_⟩
  · intro hst
    simp [AceinnaIMUSensor.startSensor, AceinnaIMUSensor.isVirtualSensor, hvirt, hst]
  · intro hst hcm
    simp [AceinnaIMUSensor.startSensor, AceinnaIMUSensor.isVirtualSensor, hvirt, hst, hcm]
  · intro hst cm hcm
    have hrun : self.startSensor dw w =
        ((sendConfigMessages dw self.m_canSensor cm self.configCount 0
            (w.trace ++ [Event.sensorStart self.m_canSensor DW_SUCCESS])).1,
          ⟨(sendConfigMessages dw self.m_canSensor cm self.configCount 0
            (w.trace ++ [Event.sensorStart self.m_canSensor DW_SUCCESS])).2, w.instance_⟩) := by
      simp [AceinnaIMUSensor.startSensor, AceinnaIMUSensor.isVirtualSensor, hvirt, hst, hcm]
    refine ⟨hrun, ?_⟩
    obtain ⟨sends, hs, hall⟩ := sendConfigMessages_sends dw self.m_canSensor cm
      self.configCount 0 (w.trace ++ [Event.sensorStart self.m_canSensor DW_SUCCESS])
    refine ⟨sends, ?_, ?_⟩
    · rw [hrun]
      simp [hs]
    · intro e he
      obtain ⟨j, s, _, h2, h3⟩ := hall e he
      exact ⟨j, s, by omega, h3⟩

/-- C5 does not hold as stated.  First: `createSensor` on
`"can-proto=can.socket"` creates the CAN sensor `7`, fails in `init` and returns
`DW_FAILURE`; the `startSensor` that follows calls `dwSensor_start` on sensor
`7`, which starts, and returns `DW_SUCCESS`.  Second: on a sensor that holds
two configuration frames from an earlier `createSensor`, `createSensor` on
`"packet-rate=50"` returns `DW_FAILURE` for the missing token; the
`startSensor` that follows starts sensor `7` and sends both frames. -/
theorem failed_createSensor_does_not_prevent_start :
    (createWithoutDirectives.1 = DW_FAILURE ∧
     (createWithoutDirectives.2.1.startSensor (scriptedDW []) createWithoutDirectives.2.2).1
       = DW_SUCCESS ∧
     (createWithoutDirectives.2.1.startSensor (scriptedDW []) createWithoutDirectives.2.2).2.trace
       = [Event.salCreateSensor "can-proto=can.socket".toList "can.socket".toList 3 DW_SUCCESS 7,
          Event.imuInit "can-proto=can.socket".toList false,
          Event.sensorStart 7 DW_SUCCESS]) ∧
    (createWithDirectives.1 = DW_SUCCESS ∧
     createAgainWithoutProtocol.1 = DW_FAILURE ∧
     (createAgainWithoutProtocol.2.1.startSensor (scriptedDW [])
        createAgainWithoutProtocol.2.2).1 = DW_SUCCESS ∧
     (createAgainWithoutProtocol.2.1.startSensor (scriptedDW [])
        createAgainWithoutProtocol.2.2).2.trace
       = [Event.salCreateSensor directiveParams "can.socket".toList 3 DW_SUCCESS 7,
          Event.imuInit directiveParams true,
          Event.sensorStart 7 DW_SUCCESS,
          Event.canSend ⟨0, 0x200, 8, []⟩ 100000 7 DW_SUCCESS,
          Event.canSend ⟨0, 0x201, 8, []⟩ 100000 7 DW_SUCCESS]) := by
  decide

/-- C5 as amended: a failure of `createSensor` is reported by its status
`DW_FAILURE` only and does not prevent the start.  The sensor it leaves is
non-virtual and otherwise as before (list, count and handle) when the token
was missing; as before but for the handle `dwSAL_createSensor` wrote when the
CAN sensor was not created; and holds the handle `dwSAL_createSensor` wrote
and the list and count (modulo 256) `init` wrote when `init` was reached and
answered false.  The `startSensor` that follows calls `dwSensor_start` on the
stored handle, first and once; when that does not answer `DW_SUCCESS`, its
status is returned and nothing is sent; when it does and the sensor holds no
list, nothing is sent and `DW_SUCCESS` is returned; when it does and the
sensor holds a list, the configuration loop runs over that list and the stored
count, sending only frames of the list with index below the count.  So a
sensor that held no list before a `createSensor` that failed before `init`
sends no configuration frame. -/
theorem startSensor_after_failed_createSensor {σ : Type} (dw : DriveWorks) (imu : IMU σ)
    (self : AceinnaIMUSensor) (w : World σ) (sal : Nat) (params : List Char)
    (st0 : dwStatus) (s1 : AceinnaIMUSensor) (w1 : World σ)
    (hres : self.createSensor dw imu w sal params = (st0, s1, w1))
    (hfail : st0 ≠ DW_SUCCESS) :
    st0 = DW_FAILURE ∧
    ((¬ searchString <:+: params ∧
        s1 = { self with m_sal := sal, m_virtualSensorFlag := false } ∧ w1 = w) ∨
     (searchString <:+: params ∧ (createAnswer dw self w sal params).1 ≠ DW_SUCCESS ∧
        s1 = { self with m_sal := sal, m_virtualSensorFlag := false,
                         m_canSensor := (createAnswer dw self w sal params).2 } ∧
        w1 = ⟨w.trace ++ [Event.salCreateSensor params (protocolOf params) sal
                (createAnswer dw self w sal params).1 (createAnswer dw self w sal params).2],
              w.instance_⟩) ∨
     (searchString <:+: params ∧ (createAnswer dw self w sal params).1 = DW_SUCCESS ∧
        (initAnswer imu self w params).1 = false ∧
        s1 = { self with m_sal := sal, m_virtualSensorFlag := false,
                         m_canSensor := (createAnswer dw self w sal params).2,
                         configMessages := (initAnswer imu self w params).2.1,
                         configCount := (initAnswer imu self w params).2.2.1 % 256 } ∧
        w1 = ⟨w.trace ++ [Event.salCreateSensor params (protocolOf params) sal
                DW_SUCCESS (createAnswer dw self w sal params).2,
                Event.imuInit params false],
              (initAnswer imu self w params).2.2.2⟩)) ∧
    (dw.dwSensor_start w1.trace s1.m_canSensor ≠ DW_SUCCESS →
      s1.startSensor dw w1 =
        (dw.dwSensor_start w1.trace s1.m_canSensor,
          ⟨w1.trace ++ [Event.sensorStart s1.m_canSensor
              (dw.dwSensor_start w1.trace s1.m_canSensor)], w1.instance_⟩)) ∧
    (dw.dwSensor_start w1.trace s1.m_canSensor = DW_SUCCESS →
      s1.configMessages = none →
      s1.startSensor dw w1 =
        (DW_SUCCESS,
          ⟨w1.trace ++ [Event.sensorStart s1.m_canSensor DW_SUCCESS], w1.instance_⟩)) ∧
    (dw.dwSensor_start w1.trace s1.m_canSensor = DW_SUCCESS →
      ∀ cm, s1.configMessages = some cm →
        s1.startSensor dw w1 =
          ((sendConfigMessages dw s1.m_canSensor cm s1.configCount 0
              (w1.trace ++ [Event.sensorStart s1.m_canSensor DW_SUCCESS])).1,
            ⟨(sendConfigMessages dw s1.m_canSensor cm s1.configCount 0
              (w1.trace ++ [Event.sensorStart s1.m_canSensor DW_SUCCESS])).2, w1.instance_⟩) ∧
        ∃ sends : List Event,
          (s1.startSensor dw w1).2.trace =
            w1.trace ++ Event.sensorStart s1.m_canSensor DW_SUCCESS :: sends ∧
          ∀ e ∈ sends, ∃ j s, j < s1.configCount ∧
            e = Event.canSend (cm j) 100000 s1.m_canSensor s) ∧
    ((¬ searchString <:+: params ∨ (createAnswer dw self w sal params).1 ≠ DW_SUCCESS) →
      self.configMessages = none →
      (s1.startSensor dw w1).2.trace =
        w1.trace ++ [Event.sensorStart s1.m_canSensor
          (dw.dwSensor_start w1.trace s1.m_canSensor)]) := by
  have hfail' : (self.createSensor dw imu w sal params).1 ≠ DW_SUCCESS := by
    rw [hres]; exact hfail
  have hcases := createSensor_failed_cases dw imu self w sal params hfail'
  have hvirt : s1.m_virtualSensorFlag = false := by
    rcases hcases with ⟨_, h⟩ | ⟨_, _, h⟩ | ⟨_, _, _, h⟩ <;>
      · rw [hres] at h
        simp only [Prod.mk.injEq] at h
        rw [h.2.1]
  have hst0 : st0 = DW_FAILURE := by
    rcases hcases with ⟨_, h⟩ | ⟨_, _, h⟩ | ⟨_, _, _, h⟩ <;>
      · rw [hres] at h
        simp only [Prod.mk.injEq] at h
        exact h.1
  obtain ⟨hA, hB, hC⟩ := startSensor_cases dw s1 w1 hvirt
  refine ⟨hst0, ?_, hA, hB, hC, ?_⟩
  · rcases hcases with ⟨h1, h⟩ | ⟨h1, h2, h⟩ | ⟨h1, h2, h3, h⟩
    · rw [hres] at h
      simp only [Prod.mk.injEq] at h
      exact Or.inl ⟨h1, h.2.1, h.2.2⟩
    · rw [hres] at h
      simp only [Prod.mk.injEq] at h
      exact Or.inr (Or.inl ⟨h1, h2, h.2.1, h.2.2⟩)
    · rw [hres] at h
      simp only [Prod.mk.injEq] at h
      exact Or.inr (Or.inr ⟨h1, h2, h3, h.2.1, h.2.2⟩)
  · intro hearly hnone
    have hs1 : s1.configMessages = none := by
      rcases hcases with ⟨_, h⟩ | ⟨_, _, h⟩ | ⟨h1, h2, _, _⟩
      · rw [hres] at h
        simp only [Prod.mk.injEq] at h
        rw [h.2.1]; exact hnone
      · rw [hres] at h
        simp only [Prod.mk.injEq] at h
        rw [h.2.1]; exact hnone
      · rcases hearly with hn | hn
        · exact absurd h1 hn
        · exact absurd h2 hn
    by_cases hst : dw.dwSensor_start w1.trace s1.m_canSensor = DW_SUCCESS
    · rw [hB hst hs1, hst]
    · rw [hA hst]

/-- C5 as amended, twice.  At the second `createSensor`, on `"packet-rate=50"`,
of a sensor that holds two frames: it fails, and the `startSensor` that follows
sends only frames of that list with index below two.  At `createSensor` on
`"can-proto=can.socket"` of the fresh sensor: it fails in `init`, the sensor
holds no list, and the `startSensor` that follows starts sensor `7`, sends
nothing and returns `DW_SUCCESS`. -/
theorem startSensor_after_failed_createSensor_witness :
    (createAgainWithoutProtocol.1 ≠ DW_SUCCESS ∧
      ∃ sends : List Event,
        (createAgainWithoutProtocol.2.1.startSensor (scriptedDW [])
            createAgainWithoutProtocol.2.2).2.trace =
          createAgainWithoutProtocol.2.2.trace ++
            Event.sensorStart createAgainWithoutProtocol.2.1.m_canSensor DW_SUCCESS :: sends ∧
        ∀ e ∈ sends, ∃ j s, j < createAgainWithoutProtocol.2.1.configCount ∧
          e = Event.canSend ((fun i => ⟨0, 0x200 + i, 8, []⟩ : Nat → dwCANMessage) j) 100000
            createAgainWithoutProtocol.2.1.m_canSensor s) ∧
    (createWithoutDirectives.1 ≠ DW_SUCCESS ∧
      createWithoutDirectives.2.1.startSensor (scriptedDW []) createWithoutDirectives.2.2 =
        (DW_SUCCESS,
          ⟨createWithoutDirectives.2.2.trace ++
              [Event.sensorStart createWithoutDirectives.2.1.m_canSensor DW_SUCCESS],
            createWithoutDirectives.2.2.instance_⟩)) :=
  ⟨⟨by decide,
     ((startSensor_after_failed_createSensor (scriptedDW []) sampleIMU
        createWithDirectives.2.1 createWithDirectives.2.2 3 "packet-rate=50".toList
        DW_FAILURE createAgainWithoutProtocol.2.1 createAgainWithoutProtocol.2.2
        rfl (by decide)).2.2.2.2.1 (by decide) (fun i => ⟨0, 0x200 + i, 8, []⟩) rfl).2⟩,
   ⟨by decide,
     (startSensor_after_failed_createSensor (scriptedDW []) sampleIMU
        freshSensor world0 3 "can-proto=can.socket".toList
        DW_FAILURE createWithoutDirectives.2.1 createWithoutDirectives.2.2
        rfl (by decide)).2.2.2.1 (by decide) rfl⟩⟩

/-- C6 fails on the code: with a CAN sensor whose first read times out,
`readRawData` returns `DW_SUCCESS` and hands back the slot as it was, a frame
no read of this call delivered; and with a CAN sensor that delivers one frame
outside the filter and then times out, it returns `DW_SUCCESS` with that
frame, which `isValidMessage` rejects. -/
theorem readRawData_success_after_failed_read :
    (((configuredSensor.readRawData (scriptedDW []) sampleIMU world0 10000 1).map
        (fun r => (r.status, r.data, r.world.trace))) =
      some (DW_SUCCESS, some (0, dwCANMessage.zero),
        [Event.canRead 10000 7 DW_TIME_OUT dwCANMessage.zero])) ∧
    (((configuredSensor.readRawData (scriptedDW [⟨10, 0x50, 8, []⟩]) sampleIMU world0 10000 2).map
        (fun r => (r.status, r.data, r.world.trace))) =
      some (DW_SUCCESS, some (0, ⟨10, 0x50, 8, []⟩),
        [Event.canRead 10000 7 DW_SUCCESS ⟨10, 0x50, 8, []⟩,
         Event.canRead 10000 7 DW_TIME_OUT ⟨10, 0x50, 8, []⟩])) ∧
    sampleIMU.isValidMessage world0.instance_ 0x50 = false := by
  decide

/-- The loop of `readRawData` on reads that deliver frames outside the filter
and then one inside it: it stops at that one, having read no further. -/
theorem readLoop_first_valid {σ : Type} (dw : DriveWorks) (imu : IMU σ) (inst : σ)
    (timeout_us : Nat) (canSensor : dwSensorHandle_t) (f : dwCANMessage)
    (post : List dwCANMessage) (hf : imu.isValidMessage inst f.id = true) :
    ∀ (pre : List dwCANMessage) (slot : dwCANMessage) (trace : List Event) (fuel : Nat),
      readsYield dw timeout_us canSensor (pre ++ f :: post) slot trace →
      (∀ x ∈ pre, imu.isValidMessage inst x.id = false) →
      pre.length < fuel →
      readLoop dw imu inst timeout_us canSensor fuel slot trace =
        some (f, trace ++ readEvents timeout_us canSensor (pre ++ [f])) := by
  intro pre
  induction pre with
  | nil =>
    intro slot trace fuel hreads _ hfuel
    obtain ⟨hr, _⟩ := hreads
    cases fuel with
    | zero => simp at hfuel
    | succ fuel => simp [readLoop, hr, hf, readEvents]
  | cons x pre ih =>
    intro slot trace fuel hreads hpre hfuel
    obtain ⟨hr, hrest⟩ := hreads
    cases fuel with
    | zero => simp at hfuel
    | succ fuel =>
      have hx : imu.isValidMessage inst x.id = false := hpre x (List.mem_cons_self x pre)
      have := ih x (trace ++ [Event.canRead timeout_us canSensor DW_SUCCESS x]) fuel hrest
        (fun y hy => hpre y (List.mem_cons_of_mem x hy))
        (by simpa using hfuel)
      simp [readLoop, hr, hx, this, readEvents]

/-- A list that holds an element passing `p` splits at the first such element:
the longest run of elements failing `p`, that element, and the rest. -/
theorem split_at_first (p : dwCANMessage → Bool) :
    ∀ fs : List dwCANMessage, (∃ x ∈ fs, p x = true) →
      ∃ f post, fs = fs.takeWhile (fun x => !p x) ++ f :: post ∧
        fs.find? p = some f ∧ p f = true ∧
        ∀ x ∈ fs.takeWhile (fun x => !p x), p x = false := by
  intro fs
  induction fs with
  | nil => rintro ⟨x, hx, _⟩; simp at hx
  | cons a fs ih =>
    intro hex
    cases hpa : p a with
    | true => exact ⟨a, fs, by simp [List.takeWhile, hpa], by simp [hpa], hpa, by simp [hpa]⟩
    | false =>
      have hex2 : ∃ x ∈ fs, p x = true := by
        obtain ⟨x, hx, hpx⟩ := hex
        rcases List.mem_cons.1 hx with rfl | hx
        · rw [hpa] at hpx; cases hpx
        · exact ⟨x, hx, hpx⟩
      obtain ⟨f, post, h1, h2, h3, h4⟩ := ih hex2
      refine ⟨f, post, ?_, ?_, h3, ?_⟩
      · simp only [List.takeWhile, hpa, Bool.not_false, List.cons_append]
        rw [← h1]
      · simp [List.find?, hpa, h2]
      · intro x hx
        simp only [List.takeWhile, hpa, Bool.not_false, List.mem_cons] at hx
        rcases hx with rfl | hx
        · exact hpa
        · exact h4 x hx

/-- C7: given a free slot, and CAN reads that deliver the frames `fs` with
success, at least one of which passes `isValidMessage`, `readRawData` returns
(its loop ends) with `DW_SUCCESS` and, in the slot, the first frame of `fs`
that passes `isValidMessage`; the reads it made are exactly those of the
frames before that one and of that one, in order: the earlier frames are
dropped with no error, and no frame after the returned one is read. -/
theorem readRawData_first_valid {σ : Type} (dw : DriveWorks) (imu : IMU σ)
    (self : AceinnaIMUSensor) (w : World σ) (timeout_us : Nat)
    (result : Nat × dwCANMessage) (pool : BufferPool)
    (fs : List dwCANMessage) (fuel : Nat)
    (hslot : self.m_slot.get = some (result, pool))
    (hreads : readsYield dw timeout_us self.m_canSensor fs result.2 w.trace)
    (hvalid : ∃ x ∈ fs, imu.isValidMessage w.instance_ x.id = true)
    (hfuel : (fs.takeWhile (fun x => !imu.isValidMessage w.instance_ x.id)).length < fuel) :
    ∃ r f, self.readRawData dw imu w timeout_us fuel = some r ∧
      fs.find? (fun x => imu.isValidMessage w.instance_ x.id) = some f ∧
      r.status = DW_SUCCESS ∧
      r.data = some (result.1, f) ∧
      r.world.trace = w.trace ++ readEvents timeout_us self.m_canSensor
        (fs.takeWhile (fun x => !imu.isValidMessage w.instance_ x.id) ++ [f]) := by
  obtain ⟨f, post, hsplit, hfind, hf, hpre⟩ :=
    split_at_first (fun x => imu.isValidMessage w.instance_ x.id) fs hvalid
  rw [hsplit] at hreads
  have := readLoop_first_valid dw imu w.instance_ timeout_us self.m_canSensor f post hf
    _ result.2 w.trace fuel hreads hpre hfuel
  simp only [AceinnaIMUSensor.readRawData, hslot, this]
  exact ⟨_, f, rfl, hfind, rfl, rfl, rfl⟩

/-- C7 at three frames delivered, the second the first to pass the filter: the
second is handed back after two reads. -/
theorem readRawData_first_valid_witness :
    ∃ r f, configuredSensor.readRawData
        (scriptedDW [⟨1, 0x50, 8, []⟩, ⟨2, 0x120, 8, []⟩, ⟨3, 0x130, 8, []⟩])
        sampleIMU world0 10000 2 = some r ∧
      [(⟨1, 0x50, 8, []⟩ : dwCANMessage), ⟨2, 0x120, 8, []⟩, ⟨3, 0x130, 8, []⟩].find?
        (fun x => sampleIMU.isValidMessage world0.instance_ x.id) = some f ∧
      r.status = DW_SUCCESS ∧
      r.data = some ((0, dwCANMessage.zero).1, f) ∧
      r.world.trace = world0.trace ++ readEvents 10000 configuredSensor.m_canSensor
        ([(⟨1, 0x50, 8, []⟩ : dwCANMessage), ⟨2, 0x120, 8, []⟩, ⟨3, 0x130, 8, []⟩].takeWhile
          (fun x => !sampleIMU.isValidMessage world0.instance_ x.id) ++ [f]) :=
  readRawData_first_valid
    (scriptedDW [⟨1, 0x50, 8, []⟩, ⟨2, 0x120, 8, []⟩, ⟨3, 0x130, 8, []⟩])
    sampleIMU configuredSensor world0 10000 (0, dwCANMessage.zero)
    ⟨[(1, dwCANMessage.zero), (2, dwCANMessage.zero), (3, dwCANMessage.zero),
      (4, dwCANMessage.zero)], []⟩
    [⟨1, 0x50, 8, []⟩, ⟨2, 0x120, 8, []⟩, ⟨3, 0x130, 8, []⟩] 2
    (by decide) ⟨by decide, by decide, by decide, trivial⟩
    ⟨⟨2, 0x120, 8, []⟩, by decide, by decide⟩ (by decide)

open IMUPARAM_t

/-- C8: in `IMUPARAM_t` the bank-of-PS parameters are exactly the five
enumerators with values 0..4, the value parameters are the six with values
5..10, `PARAM_MAX_PARAMS` is 11, every bank-of-PS parameter has a smaller value
than every value parameter, the traversal in ascending order of value goes
through the five before the six, and in any list of parameters in ascending
order of value no bank-of-PS parameter comes after a value parameter. -/
theorem bankOfPS_before_value_params :
    (all.filter isBankOfPS = [PARAM_RESET_ALGO_PS, PARAM_SET_PACKET_RATE_PS,
        PARAM_SET_PACKET_TYPE_PS, PARAM_SET_FILTER_CUTOFF_PS, PARAM_SET_ORIENTATION_PS]) ∧
    ((all.filter isBankOfPS).map ordinal = [0, 1, 2, 3, 4]) ∧
    (all.filter isValueParam = [PARAM_PACKET_RATE, PARAM_PACKET_TYPE, PARAM_ORIENTATION,
        PARAM_RATE_LPF, PARAM_ACCEL_LPF, PARAM_RESET_ALGO]) ∧
    ((all.filter isValueParam).map ordinal = [5, 6, 7, 8, 9, 10]) ∧
    (PARAM_MAX_PARAMS.ordinal = 11) ∧
    (traversal = all.filter isBankOfPS ++ all.filter isValueParam) ∧
    (∀ p q : IMUPARAM_t, p.isBankOfPS = true → q.isValueParam = true →
      p.ordinal < q.ordinal) ∧
    (∀ (l l1 l2 : List IMUPARAM_t) (q : IMUPARAM_t),
      l.Pairwise (fun a b => a.ordinal < b.ordinal) → l = l1 ++ q :: l2 →
      q.isValueParam = true → ∀ p ∈ l2, p.isBankOfPS = false) := by
  have hlt : ∀ p q : IMUPARAM_t, p.isBankOfPS = true → q.isValueParam = true →
      p.ordinal < q.ordinal := by
    intro p q
    cases p <;> cases q <;> decide
  refine ⟨by decide, by decide, by decide, by decide, by decide, by decide, hlt, ?_⟩
  intro l l1 l2 q hsorted hl hq p hp
  subst hl
  have hqp : q.ordinal < p.ordinal :=
    List.rel_of_pairwise_cons (List.pairwise_append.1 hsorted).2.1 hp
  cases hb : p.isBankOfPS with
  | false => rfl
  | true => exact absurd (hlt p q hb hq) (by omega)

/-- C8 at the pair packet-rate PS / packet rate, and at the ascending list
`[PARAM_SET_PACKET_RATE_PS, PARAM_PACKET_RATE, PARAM_RESET_ALGO]`. -/
theorem bankOfPS_before_value_params_witness :
    PARAM_SET_PACKET_RATE_PS.ordinal < PARAM_PACKET_RATE.ordinal ∧
    ∀ p ∈ [PARAM_RESET_ALGO], p.isBankOfPS = false :=
  ⟨bankOfPS_before_value_params.2.2.2.2.2.2.1 PARAM_SET_PACKET_RATE_PS PARAM_PACKET_RATE
      (by decide) (by decide),
    bankOfPS_before_value_params.2.2.2.2.2.2.2
      [PARAM_SET_PACKET_RATE_PS, PARAM_PACKET_RATE, PARAM_RESET_ALGO]
      [PARAM_SET_PACKET_RATE_PS] [PARAM_RESET_ALGO] PARAM_PACKET_RATE
      (by decide) rfl (by decide)⟩

/-- C9: in each of the four payload structs the declared widths add up to 64
bits; laid out one after the other in declaration order, the members get the
bit ranges listed, every bit of the eight payload bytes lies in exactly one
member, and no member reaches past bit 64. -/
theorem payload_layouts_tile_64_bits :
    (∀ l ∈ payloadLayouts, totalWidth l = 64 ∧
      (∀ b, b < 64 → ((layout l).filter (fun r => decide (r.1 ≤ b ∧ b < r.2))).length = 1) ∧
      (∀ r ∈ layout l, r.1 < r.2 ∧ r.2 ≤ 64)) ∧
    layout angularRate =
      [(0, 16), (16, 32), (32, 48), (48, 50), (50, 52), (52, 54), (54, 56), (56, 64)] ∧
    layout accelSensor =
      [(0, 16), (16, 32), (32, 48), (48, 50), (50, 52), (52, 54), (54, 56), (56, 64)] ∧
    layout magSensor = [(0, 16), (16, 32), (32, 48), (48, 64)] ∧
    layout slopeSensor =
      [(0, 24), (24, 48), (48, 50), (50, 52), (52, 54), (54, 56), (56, 64)] := by
  refine ⟨?_, by decide, by decide, by decide, by decide⟩
  decide

/-- The loop of `checkValid` answers true exactly for the handles in the
registry. -/
theorem checkValid_iff (g : SensorContext) (sensor : Nat) :
    checkValid g sensor = true ↔ sensor ∈ handles g := by
  induction g with
  | nil => simp [checkValid, handles]
  | cons i rest ih =>
    unfold checkValid
    by_cases h : i.1 = sensor
    · simp [h, handles]
    · have h2 : ¬ sensor = i.1 := fun e => h e.symm
      simp only [h, if_false, ih]
      simp [handles, h2]

/-- A handle that `new` hands out while the others are live keeps the
registry's handles distinct. -/
theorem createHandle_nodup (dw : DriveWorks) (g : SensorContext) (sensor : Option Nat)
    (packetSize ctx addr configCount : Nat) (hfresh : addr ∉ handles g)
    (hnodup : (handles g).Nodup) :
    (handles (_dwSensorPlugin_createHandle dw g sensor packetSize ctx addr configCount).2.1).Nodup := by
  cases sensor with
  | none => simpa [_dwSensorPlugin_createHandle] using hnodup
  | some p =>
    simp only [_dwSensorPlugin_createHandle, handles, List.map_append, List.map_cons,
      List.map_nil]
    refine List.Nodup.append hnodup (List.nodup_singleton addr) ?_
    intro x hx hx2
    rw [List.mem_singleton] at hx2
    subst hx2
    exact hfresh hx

/-- The loop of `_dwSensorPlugin_release` on a registry of distinct handles
that holds `sensor`: it answers `DW_SUCCESS` and leaves exactly the entries of
the other handles, as they were and in their order. -/
theorem releaseLoop_registered {σ : Type} (dw : DriveWorks) (sensor : Nat) :
    ∀ (g : SensorContext) (w : World σ), sensor ∈ handles g → (handles g).Nodup →
      (releaseLoop dw sensor g w).1 = DW_SUCCESS ∧
      (releaseLoop dw sensor g w).2.1 = g.filter (fun e => decide (e.1 ≠ sensor)) := by
  intro g
  induction g with
  | nil => intro w hmem; simp [handles] at hmem
  | cons i rest ih =>
    intro w hmem hnodup
    have hnd : i.1 ∉ handles rest ∧ (handles rest).Nodup := by
      simpa [handles] using hnodup
    unfold releaseLoop
    by_cases h : i.1 = sensor
    · have hrest : rest.filter (fun e => decide (e.1 ≠ sensor)) = rest := by
        apply List.filter_eq_self.2
        intro e he
        have : e.1 ∈ handles rest := List.mem_map_of_mem Prod.fst he
        simp only [ne_eq, decide_not, Bool.not_eq_eq_eq_not, Bool.not_true,
          decide_eq_false_iff_not]
        intro heq
        exact hnd.1 (by rw [h, ← heq]; exact this)
      rw [if_pos h]
      refine ⟨rfl, ?_⟩
      rw [List.filter_cons_of_neg (by simp [h]), hrest]
    · have hmem2 : sensor ∈ handles rest := by
        have : sensor = i.1 ∨ sensor ∈ handles rest := by simpa [handles] using hmem
        rcases this with e | m
        · exact absurd e.symm h
        · exact m
      obtain ⟨h1, h2⟩ := ih w hmem2 hnd.2
      simp [h, h1, h2]

/-- C10: on a registry of distinct handles that holds `sensor`,
`_dwSensorPlugin_release` returns `DW_SUCCESS` (it never reaches the trailing
`DW_FAILURE`), the registry it leaves does not hold `sensor`, and it holds
exactly the entries of all other handles, unchanged and in their original
order. -/
theorem release_registered {σ : Type} (dw : DriveWorks) (g : SensorContext) (w : World σ)
    (sensor : Nat) (hmem : sensor ∈ handles g) (hnodup : (handles g).Nodup) :
    (_dwSensorPlugin_release dw g w sensor).1 = DW_SUCCESS ∧
    sensor ∉ handles (_dwSensorPlugin_release dw g w sensor).2.1 ∧
    (_dwSensorPlugin_release dw g w sensor).2.1 = g.filter (fun e => decide (e.1 ≠ sensor)) ∧
    handles (_dwSensorPlugin_release dw g w sensor).2.1 =
      (handles g).filter (fun x => decide (x ≠ sensor)) := by
  have hv : checkValid g sensor = true := (checkValid_iff g sensor).2 hmem
  obtain ⟨h1, h2⟩ := releaseLoop_registered dw sensor g w hmem hnodup
  have hr : _dwSensorPlugin_release dw g w sensor = releaseLoop dw sensor g w := by
    simp [_dwSensorPlugin_release, hv]
  rw [hr]
  refine ⟨h1, ?_, h2, ?_⟩
  · rw [h2]
    simp [handles]
  · rw [h2]
    unfold handles
    rw [List.filter_map]
    rfl

/-- C10 at the registry of the handles `100` and `200`, releasing `100`:
success, and `200` stays. -/
theorem release_registered_witness :
    (100 ∈ handles twoHandles ∧ (handles twoHandles).Nodup) ∧
    (_dwSensorPlugin_release (scriptedDW []) twoHandles world0 100).1 = DW_SUCCESS ∧
    handles (_dwSensorPlugin_release (scriptedDW []) twoHandles world0 100).2.1 = [200] :=
  ⟨⟨by decide, by decide⟩,
    (release_registered (scriptedDW []) twoHandles world0 100 (by decide) (by decide)).1,
    by
      rw [(release_registered (scriptedDW []) twoHandles world0 100
        (by decide) (by decide)).2.2.2]
      decide⟩

/-- The object looked up for a valid handle is the one the registry owns at
that address. -/
theorem sensorAt_mem (g : SensorContext) (sensor : Nat) (h : (!checkValid g sensor) ≠ true) :
    (sensor, sensorAt g sensor h) ∈ g := by
  induction g with
  | nil => exact absurd rfl h
  | cons i rest ih =>
    unfold sensorAt
    by_cases hi : i.1 = sensor
    · simp only [hi, dite_true]
      rw [← hi]
      exact List.mem_cons_self i rest
    · simp only [hi, dite_false]
      exact List.mem_cons_of_mem i (ih _)

/-- C11: `checkValid` answers true exactly for the handles in the registry; and
for a handle that is not in the registry each of the exported `createSensor`,
`start`, `stop`, `reset`, `release`, `readRawData`, `returnRawData`, `pushData`
and `parseDataBuffer` returns `DW_INVALID_HANDLE` and leaves everything as it
was: the registry with every sensor object in it, the history of runtime and
`init` calls, the IMU instance, and the out-parameters. -/
theorem invalid_handle_rejected {σ : Type} (dw : DriveWorks) (imu : IMU σ)
    (g : SensorContext) (w : World σ) (sensor : Nat) (hnot : sensor ∉ handles g)
    (params : List Char) (sal timeout_us fuel lenPushed size : Nat) (data : Option Nat)
    (pushed : List dwCANMessage) (frame : dwIMUFrame) (consumed : Option Nat) :
    (∀ (g' : SensorContext) (h : Nat), checkValid g' h = true ↔ h ∈ handles g') ∧
    _dwSensorPlugin_createSensor dw imu g w params sal sensor = (DW_INVALID_HANDLE, g, w) ∧
    _dwSensorPlugin_start dw g w sensor = (DW_INVALID_HANDLE, g, w) ∧
    _dwSensorPlugin_stop dw g w sensor = (DW_INVALID_HANDLE, g, w) ∧
    _dwSensorPlugin_reset dw g w sensor = (DW_INVALID_HANDLE, g, w) ∧
    _dwSensorPlugin_release dw g w sensor = (DW_INVALID_HANDLE, g, w) ∧
    _dwSensorPlugin_readRawData dw imu g w timeout_us sensor fuel
      = some (DW_INVALID_HANDLE, none, none, g, w) ∧
    _dwSensorPlugin_returnRawData g data sensor = (DW_INVALID_HANDLE, g) ∧
    _dwSensorPlugin_pushData g lenPushed pushed size sensor
      = (DW_INVALID_HANDLE, lenPushed, g) ∧
    _dwSensorIMUPlugin_parseDataBuffer dw imu g w frame consumed sensor
      = (DW_INVALID_HANDLE, frame, consumed, g) := by
  have hv : checkValid g sensor = false := by
    cases hc : checkValid g sensor with
    | false => rfl
    | true => exact absurd ((checkValid_iff g sensor).1 hc) hnot
  refine ⟨checkValid_iff, ?_, ?_, ?_, ?_, ?_, ?_, ?_, ?_, ?_⟩
  · simp [_dwSensorPlugin_createSensor, hv]
  · simp [_dwSensorPlugin_start, hv]
  · simp [_dwSensorPlugin_stop, hv]
  · simp [_dwSensorPlugin_reset, hv]
  · simp [_dwSensorPlugin_release, hv]
  · simp [_dwSensorPlugin_readRawData, hv]
  · simp [_dwSensorPlugin_returnRawData, hv]
  · simp [_dwSensorPlugin_pushData, hv]
  · simp [_dwSensorIMUPlugin_parseDataBuffer, hv]

/-- C11 at the registry of the handles `100` and `200` and the handle `300`:
`start` and `pushData` are turned away, the registry stays. -/
theorem invalid_handle_rejected_witness :
    300 ∉ handles twoHandles ∧
    _dwSensorPlugin_start (scriptedDW []) twoHandles world0 300
      = (DW_INVALID_HANDLE, twoHandles, world0) ∧
    _dwSensorPlugin_pushData twoHandles 0 [⟨1, 0x120, 8, []⟩] 80 300
      = (DW_INVALID_HANDLE, 0, twoHandles) :=
  ⟨by decide,
    (invalid_handle_rejected (scriptedDW []) sampleIMU twoHandles world0 300 (by decide)
      [] 0 0 0 0 80 none [⟨1, 0x120, 8, []⟩] ⟨0, []⟩ none).2.2.1,
    (invalid_handle_rejected (scriptedDW []) sampleIMU twoHandles world0 300 (by decide)
      [] 0 0 0 0 80 none [⟨1, 0x120, 8, []⟩] ⟨0, []⟩ none).2.2.2.2.2.2.2.2.1⟩

/-- On a valid handle the exported functions do reach the sensor: `pushData` on
handle `100` succeeds and reports the pushed length. -/
theorem valid_handle_dispatches :
    (_dwSensorPlugin_pushData twoHandles 0 [⟨1, 0x120, 8, []⟩] 80 100).1 = DW_SUCCESS ∧
    (_dwSensorPlugin_pushData twoHandles 0 [⟨1, 0x120, 8, []⟩] 80 100).2.1 = 80 ∧
    (_dwSensorPlugin_start (scriptedDW []) twoHandles world0 100).1 = DW_SUCCESS := by
  decide

/-- What the search answers is the first place where the pattern begins. -/
theorem findFrom_eq_some (pat : List Char) :
    ∀ (s : List Char) (i j : Nat), findFrom pat s i = some j →
      ∃ k, j = i + k ∧ pat <+: s.drop k ∧ ∀ k', k' < k → ¬ pat <+: s.drop k' := by
  intro s
  induction s with
  | nil =>
    intro i j h
    unfold findFrom at h
    by_cases hp : startsWith [] pat = true
    · simp only [hp, if_true, Option.some.injEq] at h
      exact ⟨0, by omega, by simpa using (startsWith_iff _ _).1 hp, by intro k' hk'; omega⟩
    · simp [hp] at h
  | cons c cs ih =>
    intro i j h
    unfold findFrom at h
    by_cases hp : startsWith (c :: cs) pat = true
    · simp only [hp, if_true, Option.some.injEq] at h
      exact ⟨0, by omega, by simpa using (startsWith_iff _ _).1 hp, by intro k' hk'; omega⟩
    · simp only [hp, Bool.false_eq_true, if_false] at h
      obtain ⟨k, hj, hpre, hfirst⟩ := ih (i + 1) j h
      refine ⟨k + 1, by omega, by simpa using hpre, ?_⟩
      intro k' hk'
      cases k' with
      | zero =>
        intro hpfx
        exact hp ((startsWith_iff _ _).2 (by simpa using hpfx))
      | succ m =>
        have := hfirst m (by omega)
        simpa using this

/-- What `find_first_of` answers cuts the string just before its first `ch`;
`npos` means there is none. -/
theorem findCharFrom_spec (ch : Char) :
    ∀ (s : List Char) (i : Nat),
      (findCharFrom ch s i = none ∧ ch ∉ s) ∨
      (∃ j tail, findCharFrom ch s i = some j ∧ i ≤ j ∧ ch ∉ s.take (j - i) ∧
        s = s.take (j - i) ++ ch :: tail) := by
  intro s
  induction s with
  | nil => intro i; left; simp [findCharFrom]
  | cons c cs ih =>
    intro i
    unfold findCharFrom
    by_cases hc : c = ch
    · right
      refine ⟨i, cs, by simp [hc], le_refl i, by simp, by simp [hc]⟩
    · have hne : (c == ch) = false := by simpa using hc
      rcases ih (i + 1) with ⟨hnone, hnot⟩ | ⟨j, tail, hsome, hle, hnot, hsplit⟩
      · left
        refine ⟨by simp [hne, hnone], ?_⟩
        intro hmem
        rcases List.mem_cons.1 hmem with e | m
        · exact hc e.symm
        · exact hnot m
      · right
        have hji : j - i = (j - (i + 1)) + 1 := by omega
        refine ⟨j, tail, by simp [hne, hsome], by omega, ?_, ?_⟩
        · rw [hji, List.take_succ_cons]
          intro hmem
          rcases List.mem_cons.1 hmem with e | m
          · exact hc e.symm
          · exact hnot m
        · rw [hji, List.take_succ_cons, List.cons_append, ← hsplit]

/-- The protocol name cut out at `pos` is the text behind the token up to the
first comma, or all of it when it holds no comma. -/
theorem extractProtocol_spec (params : List Char) (pos : Nat) :
    ',' ∉ extractProtocol params pos ∧
    ((∃ tail, params.drop (pos + searchString.length)
        = extractProtocol params pos ++ ',' :: tail) ∨
     (',' ∉ params.drop (pos + searchString.length) ∧
      extractProtocol params pos = params.drop (pos + searchString.length))) := by
  rcases findCharFrom_spec ',' (params.drop (pos + searchString.length)) 0 with
    ⟨hnone, hnot⟩ | ⟨j, tail, hsome, _, hnot, hsplit⟩
  · have he : extractProtocol params pos = params.drop (pos + searchString.length) := by
      simp [extractProtocol, find_first_of_comma, substr, hnone]
    rw [he]
    exact ⟨hnot, Or.inr ⟨hnot, rfl⟩⟩
  · have he : extractProtocol params pos
        = (params.drop (pos + searchString.length)).take (j - 0) := by
      simp [extractProtocol, find_first_of_comma, substr, hsome]
    rw [he]
    exact ⟨hnot, Or.inl ⟨tail, hsplit⟩⟩

/-- C12: for a parameter string that holds `"can-proto="`, the protocol name
`createSensor` hands to `dwSAL_createSensor` is the text behind the first
occurrence of the token, up to but not including the next comma, or the whole
remainder when no comma follows; it never holds a comma. -/
theorem createSensor_protocol_name {σ : Type} (dw : DriveWorks) (imu : IMU σ)
    (self : AceinnaIMUSensor) (w : World σ) (sal : Nat) (params : List Char)
    (h : searchString <:+: params) :
    (∃ pos, searchString <+: params.drop pos ∧
      (∀ k, k < pos → ¬ searchString <+: params.drop k) ∧
      ((∃ tail, params.drop (pos + searchString.length) = protocolOf params ++ ',' :: tail) ∨
       (',' ∉ params.drop (pos + searchString.length) ∧
        protocolOf params = params.drop (pos + searchString.length)))) ∧
    ',' ∉ protocolOf params ∧
    (∃ evs, (self.createSensor dw imu w sal params).2.2.trace =
      w.trace ++ Event.salCreateSensor params (protocolOf params) sal
        (dw.dwSAL_createSensor w.trace self.m_canSensor params (protocolOf params) sal).1
        (dw.dwSAL_createSensor w.trace self.m_canSensor params (protocolOf params) sal).2
        :: evs) := by
  obtain ⟨pos, hf⟩ := (find_isSome_iff params searchString).2 h
  obtain ⟨k, hk, hpre, hfirst⟩ := findFrom_eq_some searchString params 0 pos hf
  have hpk : pos = k := by omega
  subst hpk
  have hproto : protocolOf params = extractProtocol params pos := by
    simp [protocolOf, hf]
  obtain ⟨hnc, hcut⟩ := extractProtocol_spec params pos
  refine ⟨⟨pos, hpre, hfirst, ?_⟩, ?_, ?_⟩
  · rw [hproto]; exact hcut
  · rw [hproto]; exact hnc
  · rw [hproto]
    by_cases hc : (dw.dwSAL_createSensor w.trace self.m_canSensor params
        (extractProtocol params pos) sal).1 = DW_SUCCESS
    · cases hi : (imu.init w.instance_ params self.configMessages self.configCount).1
      · exact ⟨[Event.imuInit params false],
          by simp [AceinnaIMUSensor.createSensor, hf, hc, hi]⟩
      · exact ⟨[Event.imuInit params true],
          by simp [AceinnaIMUSensor.createSensor, hf, hc, hi]⟩
    · exact ⟨[], by simp [AceinnaIMUSensor.createSensor, hf, hc]⟩

/-- C12 at `"can-proto=can.socket,device=can0"`: the name handed over is
`"can.socket"`, and it holds no comma. -/
theorem createSensor_protocol_name_witness :
    searchString <:+: socketParams ∧
    protocolOf socketParams = "can.socket".toList ∧
    ',' ∉ protocolOf socketParams ∧
    (freshSensor.createSensor (scriptedDW []) sampleIMU world0 3 socketParams).2.2.trace =
      [Event.salCreateSensor socketParams "can.socket".toList 3 DW_SUCCESS 7,
       Event.imuInit socketParams false] :=
  ⟨by decide, by decide,
    (createSensor_protocol_name (scriptedDW []) sampleIMU freshSensor world0 3 socketParams
      (by decide)).2.1,
    by decide⟩

end dw.plugins.imu
